import Mathlib

/-!
Verification of the DockerMaid backend (`src/server/index.js`) against its
natural-language specification.  The server code is shallowly embedded:
JavaScript strings become Lean `String`s (manipulated through their
`List Char` data), Docker byte buffers become `List Nat`, the in-memory
update cache becomes an association list, and the Docker daemon / registry
network calls become explicit environments whose operations return
`Except String _` values (modelling promise rejection by `.error`).
Time (`Date.now()`) is an explicit `Nat` parameter.
-/

namespace DockerMaid

/-! ## JavaScript string primitives

Models of the `String.prototype` operations used by the server, over
`List Char`.  JavaScript indexes UTF-16 code units; every string the server
manipulates this way (image names, tags, container ids) is ASCII, where code
units and characters coincide. -/

/-- Model of `s.startsWith(pat)`: `jsStartsWith s pat = true` iff `pat` is a
prefix of `s`. -/
def jsStartsWith : List Char → List Char → Bool
  | _, [] => true
  | [], _ :: _ => false
  | c :: s, p :: ps => c == p && jsStartsWith s ps

/-- Model of `s.endsWith(pat)`. -/
def jsEndsWith (s pat : List Char) : Bool :=
  jsStartsWith s.reverse pat.reverse

/-- Model of `s.lastIndexOf(ch)`: index of the last occurrence of `ch`,
`-1` if absent. -/
def lastIdx (ch : Char) : List Char → Int
  | [] => -1
  | c :: rest =>
    let r := lastIdx ch rest
    if 0 ≤ r then r + 1 else if c = ch then 0 else -1

/-- Model of `s.indexOf(ch)`: index of the first occurrence of `ch`,
`-1` if absent. -/
def firstIdx (ch : Char) : List Char → Int
  | [] => -1
  | c :: rest =>
    if c = ch then 0
    else
      let r := firstIdx ch rest
      if 0 ≤ r then r + 1 else -1

/-- Split a list at the last occurrence of `ch`: returns the part before and
the part after that occurrence (the part after contains no further `ch`). -/
def splitLast (ch : Char) : List Char → Option (List Char × List Char)
  | [] => none
  | c :: rest =>
    match splitLast ch rest with
    | some (b, a) => some (c :: b, a)
    | none => if c = ch then some ([], rest) else none

/-- Split a list at the first occurrence of `ch`: returns the part before
(which contains no `ch`) and the part after. -/
def splitFirst (ch : Char) : List Char → Option (List Char × List Char)
  | [] => none
  | c :: rest =>
    if c = ch then some ([], rest)
    else
      match splitFirst ch rest with
      | some (b, a) => some (c :: b, a)
      | none => none

/-- Model of `s.replace(pat, '')` (first occurrence only, no regexp). -/
def replaceFirst : List Char → List Char → List Char
  | [], _ => []
  | c :: rest, pat =>
    if jsStartsWith (c :: rest) pat then (c :: rest).drop pat.length
    else c :: replaceFirst rest pat

/-- Model of `s.includes(pat)` for a non-trivial pattern. -/
def listInfix (pat : List Char) : List Char → Bool
  | [] => pat.isEmpty
  | c :: rest => jsStartsWith (c :: rest) pat || listInfix pat rest

/-- Model of `s.toLowerCase()` on ASCII data. -/
def jsToLower (s : String) : String :=
  String.mk (s.data.map Char.toLower)

/-- Model of `s.substring(a, b)` on ASCII data. -/
def jsSubstring (s : String) (a b : Nat) : String :=
  String.mk ((s.data.drop a).take (b - a))

/-! ## Image Reference Parser (`parseImageName`, index.js lines 75-103) -/

/-- The `{registry, repository, tag}` triple produced by `parseImageName`. -/
structure ImageRef where
  registry : String
  repository : String
  tag : String
deriving Repr, DecidableEq

/-- The public Docker Hub registry host, the default registry. -/
def defaultRegistry : List Char := "registry-1.docker.io".data

/-- Embedding of `parseImageName` (index.js lines 75-103), following the
source's index arithmetic: `lastIndexOf(':')` with the `tagIndex > 0` guard
and no `/` in `substring(tagIndex)`; `indexOf('/')` with the
`firstSlash > 0` guard and a `.` or `:` in the candidate registry segment;
finally the `library/` prefix for unqualified Docker Hub repositories. -/
def parseImageName (imageName : String) : ImageRef :=
  let l := imageName.data
  let tagIndex := lastIdx ':' l
  let p1 :=
    if 0 < tagIndex ∧ (l.drop tagIndex.toNat).contains '/' = false then
      (l.take tagIndex.toNat, l.drop (tagIndex.toNat + 1))
    else (l, "latest".data)
  let repo1 := p1.1
  let tag := p1.2
  let firstSlash := firstIdx '/' repo1
  let p2 :=
    if 0 < firstSlash ∧
        ((repo1.take firstSlash.toNat).contains '.' = true ∨
          (repo1.take firstSlash.toNat).contains ':' = true) then
      (repo1.take firstSlash.toNat, repo1.drop (firstSlash.toNat + 1))
    else (defaultRegistry, repo1)
  let registry := p2.1
  let repo2 := p2.2
  let repo3 :=
    if registry = defaultRegistry ∧ repo2.contains '/' = false then
      "library/".data ++ repo2
    else repo2
  ⟨String.mk registry, String.mk repo3, String.mk tag⟩

/-- Modelled from the claim's words (C6): "the last colon not followed by a
slash delimits the tag (defaulting to latest when absent)" — with no
requirement that the colon sit at a positive index.  Kept separate from
`parseImageName` so the two can be compared. -/
def claimTagSplit (l : List Char) : List Char × List Char :=
  match splitLast ':' l with
  | some (b, a) => if a.contains '/' = false then (b, a) else (l, "latest".data)
  | none => (l, "latest".data)

/-- The tag rule actually implemented: identical to `claimTagSplit` except
that a colon at index 0 (empty part before the colon) never delimits a tag. -/
def amendedTagSplit (l : List Char) : List Char × List Char :=
  match splitLast ':' l with
  | some (b, a) =>
    if b ≠ [] ∧ a.contains '/' = false then (b, a) else (l, "latest".data)
  | none => (l, "latest".data)

/-- Registry rule, from the claim's words: a first path segment containing a
dot or a colon is stripped as the registry host; otherwise the registry
defaults to the Docker Hub host. -/
def registrySplit (repo : List Char) : List Char × List Char :=
  match splitFirst '/' repo with
  | some (seg, rest) =>
    if seg.contains '.' = true ∨ seg.contains ':' = true then (seg, rest)
    else (defaultRegistry, repo)
  | none => (defaultRegistry, repo)

/-- The `library/` rule: a Docker Hub repository containing no slash is
prefixed with `library/`. -/
def libraryFix (registry repo : List Char) : List Char :=
  if registry = defaultRegistry ∧ repo.contains '/' = false then
    "library/".data ++ repo
  else repo

/-- Parser assembled from the claim's words verbatim (C6). -/
def claimParse (imageName : String) : ImageRef :=
  let p1 := claimTagSplit imageName.data
  let p2 := registrySplit p1.1
  ⟨String.mk p2.1, String.mk (libraryFix p2.1 p2.2), String.mk p1.2⟩

/-- Parser assembled from the amended claim: the tag-delimiting colon must
sit at a positive index. -/
def amendedParse (imageName : String) : ImageRef :=
  let p1 := amendedTagSplit imageName.data
  let p2 := registrySplit p1.1
  ⟨String.mk p2.1, String.mk (libraryFix p2.1 p2.2), String.mk p1.2⟩

/-! ### Correspondence between the index-based source operations and the
split-based claim-level operations -/

theorem lastIdx_of_splitLast_none {ch : Char} {l : List Char}
    (h : splitLast ch l = none) : lastIdx ch l = -1 := by
  induction l with
  | nil => rfl
  | cons c rest ih =>
    unfold splitLast at h
    rcases hr : splitLast ch rest with _ | ⟨b, a⟩
    · rw [hr] at h
      by_cases hc : c = ch
      · simp [hc] at h
      · simp only [lastIdx, ih hr]
        norm_num [hc]
    · rw [hr] at h; simp at h

theorem lastIdx_of_splitLast_some {ch : Char} {l b a : List Char}
    (h : splitLast ch l = some (b, a)) : lastIdx ch l = (b.length : Int) := by
  induction l generalizing b a with
  | nil => simp [splitLast] at h
  | cons c rest ih =>
    unfold splitLast at h
    rcases hr : splitLast ch rest with _ | ⟨b', a'⟩
    · rw [hr] at h
      by_cases hc : c = ch
      · rw [if_pos hc] at h
        simp only [Option.some.injEq, Prod.mk.injEq] at h
        obtain ⟨hb, -⟩ := h
        subst hb
        simp only [lastIdx, lastIdx_of_splitLast_none hr]
        norm_num [hc]
      · simp [hc] at h
    · rw [hr] at h
      simp only [Option.some.injEq, Prod.mk.injEq] at h
      obtain ⟨hb, -⟩ := h
      subst hb
      simp only [lastIdx, ih hr, List.length_cons]
      rw [if_pos (by positivity)]
      push_cast
      ring

theorem splitLast_append {ch : Char} {l b a : List Char}
    (h : splitLast ch l = some (b, a)) : l = b ++ ch :: a := by
  induction l generalizing b a with
  | nil => simp [splitLast] at h
  | cons c rest ih =>
    unfold splitLast at h
    rcases hr : splitLast ch rest with _ | ⟨b', a'⟩
    · rw [hr] at h
      by_cases hc : c = ch
      · rw [if_pos hc] at h
        simp only [Option.some.injEq, Prod.mk.injEq] at h
        obtain ⟨hb, ha⟩ := h
        subst hb; subst ha
        simp [hc]
      · simp [hc] at h
    · rw [hr] at h
      simp only [Option.some.injEq, Prod.mk.injEq] at h
      obtain ⟨hb, ha⟩ := h
      subst hb; subst ha
      simp [ih hr]

theorem firstIdx_of_splitFirst_none {ch : Char} {l : List Char}
    (h : splitFirst ch l = none) : firstIdx ch l = -1 := by
  induction l with
  | nil => rfl
  | cons c rest ih =>
    unfold splitFirst at h
    by_cases hc : c = ch
    · simp [hc] at h
    · rw [if_neg hc] at h
      rcases hr : splitFirst ch rest with _ | ⟨b, a⟩
      · simp only [firstIdx, if_neg hc, ih hr]
        norm_num
      · rw [hr] at h; simp at h

theorem firstIdx_of_splitFirst_some {ch : Char} {l b a : List Char}
    (h : splitFirst ch l = some (b, a)) : firstIdx ch l = (b.length : Int) := by
  induction l generalizing b a with
  | nil => simp [splitFirst] at h
  | cons c rest ih =>
    unfold splitFirst at h
    by_cases hc : c = ch
    · rw [if_pos hc] at h
      simp only [Option.some.injEq, Prod.mk.injEq] at h
      obtain ⟨hb, -⟩ := h
      subst hb
      simp [firstIdx, hc]
    · rw [if_neg hc] at h
      rcases hr : splitFirst ch rest with _ | ⟨b', a'⟩
      · rw [hr] at h; simp at h
      · rw [hr] at h
        simp only [Option.some.injEq, Prod.mk.injEq] at h
        obtain ⟨hb, -⟩ := h
        subst hb
        simp only [firstIdx, if_neg hc, ih hr, List.length_cons]
        rw [if_pos (by positivity)]
        push_cast
        ring

theorem splitFirst_append {ch : Char} {l b a : List Char}
    (h : splitFirst ch l = some (b, a)) : l = b ++ ch :: a := by
  induction l generalizing b a with
  | nil => simp [splitFirst] at h
  | cons c rest ih =>
    unfold splitFirst at h
    by_cases hc : c = ch
    · rw [if_pos hc] at h
      simp only [Option.some.injEq, Prod.mk.injEq] at h
      obtain ⟨hb, ha⟩ := h
      subst hb; subst ha
      simp [hc]
    · rw [if_neg hc] at h
      rcases hr : splitFirst ch rest with _ | ⟨b', a'⟩
      · rw [hr] at h; simp at h
      · rw [hr] at h
        simp only [Option.some.injEq, Prod.mk.injEq] at h
        obtain ⟨hb, ha⟩ := h
        subst hb; subst ha
        simp [ih hr]

theorem take_len_append (b : List Char) (x : Char) (a : List Char) :
    (b ++ x :: a).take b.length = b := by
  induction b with
  | nil => rfl
  | cons c rest ih => simp [ih]

theorem drop_len_append (b : List Char) (x : Char) (a : List Char) :
    (b ++ x :: a).drop b.length = x :: a := by
  induction b with
  | nil => rfl
  | cons c rest ih => simp [ih]

theorem drop_len_succ_append (b : List Char) (x : Char) (a : List Char) :
    (b ++ x :: a).drop (b.length + 1) = a := by
  induction b with
  | nil => rfl
  | cons c rest ih =>
    simp only [List.cons_append, List.length_cons, List.drop_succ_cons]
    exact ih

theorem amendedTagSplit_of_none {l : List Char} (h : splitLast ':' l = none) :
    amendedTagSplit l = (l, "latest".data) := by
  unfold amendedTagSplit; rw [h]

theorem amendedTagSplit_of_some {l b a : List Char}
    (h : splitLast ':' l = some (b, a)) :
    amendedTagSplit l =
      if b ≠ [] ∧ a.contains '/' = false then (b, a) else (l, "latest".data) := by
  unfold amendedTagSplit; rw [h]

theorem registrySplit_of_none {repo : List Char} (h : splitFirst '/' repo = none) :
    registrySplit repo = (defaultRegistry, repo) := by
  unfold registrySplit; rw [h]

theorem registrySplit_of_some {repo seg rest : List Char}
    (h : splitFirst '/' repo = some (seg, rest)) :
    registrySplit repo =
      if seg.contains '.' = true ∨ seg.contains ':' = true then (seg, rest)
      else (defaultRegistry, repo) := by
  unfold registrySplit; rw [h]

/-- The index-based tag rule of `parseImageName` coincides with the
split-based `amendedTagSplit`. -/
theorem tagStep_eq (l : List Char) :
    (if 0 < lastIdx ':' l ∧ (l.drop (lastIdx ':' l).toNat).contains '/' = false
     then (l.take (lastIdx ':' l).toNat, l.drop ((lastIdx ':' l).toNat + 1))
     else (l, "latest".data)) = amendedTagSplit l := by
  rcases hsl : splitLast ':' l with _ | ⟨b, a⟩
  · rw [amendedTagSplit_of_none hsl, lastIdx_of_splitLast_none hsl,
      if_neg (fun hx => absurd hx.1 (by norm_num))]
  · have hl := splitLast_append hsl
    rw [amendedTagSplit_of_some hsl, lastIdx_of_splitLast_some hsl, Int.toNat_natCast,
      show l.take b.length = b by rw [hl, take_len_append],
      show l.drop b.length = ':' :: a by rw [hl, drop_len_append],
      show l.drop (b.length + 1) = a by rw [hl, drop_len_succ_append],
      show (':' :: a).contains '/' = a.contains '/' by simp [List.contains_cons]]
    by_cases hb : b = []
    · subst hb
      rw [if_neg (fun hx => absurd hx.1 (by norm_num)), if_neg (fun hx => hx.1 rfl)]
    · have hpos : (0 : Int) < (b.length : Int) := by
        exact_mod_cast List.length_pos.mpr hb
      by_cases hs : a.contains '/' = false
      · rw [if_pos ⟨hpos, hs⟩, if_pos ⟨hb, hs⟩]
      · rw [if_neg (fun hx => hs hx.2), if_neg (fun hx => hs hx.2)]

/-- The index-based registry rule of `parseImageName` coincides with the
split-based `registrySplit`. -/
theorem regStep_eq (repo : List Char) :
    (if 0 < firstIdx '/' repo ∧
        ((repo.take (firstIdx '/' repo).toNat).contains '.' = true ∨
          (repo.take (firstIdx '/' repo).toNat).contains ':' = true)
     then (repo.take (firstIdx '/' repo).toNat, repo.drop ((firstIdx '/' repo).toNat + 1))
     else (defaultRegistry, repo)) = registrySplit repo := by
  rcases hsf : splitFirst '/' repo with _ | ⟨seg, rest⟩
  · rw [registrySplit_of_none hsf, firstIdx_of_splitFirst_none hsf,
      if_neg (fun hx => absurd hx.1 (by norm_num))]
  · have hl := splitFirst_append hsf
    rw [registrySplit_of_some hsf, firstIdx_of_splitFirst_some hsf, Int.toNat_natCast,
      show repo.take seg.length = seg by rw [hl, take_len_append],
      show repo.drop (seg.length + 1) = rest by rw [hl, drop_len_succ_append]]
    by_cases hseg : seg = []
    · subst hseg
      rw [if_neg (fun hx => absurd hx.1 (by norm_num)),
        if_neg (fun hx => by rcases hx with hx | hx <;> simp at hx)]
    · have hpos : (0 : Int) < (seg.length : Int) := by
        exact_mod_cast List.length_pos.mpr hseg
      by_cases hc : seg.contains '.' = true ∨ seg.contains ':' = true
      · rw [if_pos ⟨hpos, hc⟩, if_pos hc]
      · rw [if_neg (fun hx => hc hx.2), if_neg hc]

/-- On every input, `parseImageName` agrees with the split-based parser
built from the amended claim. -/
theorem parseImageName_eq_amendedParse (s : String) :
    parseImageName s = amendedParse s := by
  simp only [parseImageName, amendedParse, libraryFix]
  rw [tagStep_eq, regStep_eq]

/-- C6, counterexample: on the input `":v1"` the last colon (at index 0) is
not followed by a slash, so the claimed algorithm takes `"v1"` as the tag,
but `parseImageName` requires `tagIndex > 0` and leaves the tag `"latest"`,
keeping the colon inside the repository. -/
theorem c6_counterexample :
    parseImageName ":v1" ≠ claimParse ":v1" ∧
    parseImageName ":v1" = ⟨"registry-1.docker.io", "library/:v1", "latest"⟩ ∧
    claimParse ":v1" = ⟨"registry-1.docker.io", "library/", "v1"⟩ :=
  ⟨by decide, by decide, by decide⟩

/-- C6 (amended): `parseImageName` is total over arbitrary strings and
implements the claimed algorithm — last colon *at a positive index* not
followed by a slash delimits the tag (default `"latest"`), a first path
segment containing a dot or colon is stripped as the registry host
(otherwise `"registry-1.docker.io"`), and an unqualified Docker Hub
repository is prefixed with `"library/"` — and the two quoted example
parses hold. -/
theorem c6_parseImageName_spec :
    (∀ s : String, parseImageName s = amendedParse s) ∧
    parseImageName "nginx" = ⟨"registry-1.docker.io", "library/nginx", "latest"⟩ ∧
    parseImageName "myregistry.io:5000/app:v1.2.3" =
      ⟨"myregistry.io:5000", "app", "v1.2.3"⟩ :=
  ⟨parseImageName_eq_amendedParse, by decide, by decide⟩

/-! ## Tag Classifier (`isPinnedVersionTag`, index.js lines 245-259) -/

/-- The fixed list of floating tags (index.js line 247). -/
def dynamicTags : List String :=
  ["latest", "stable", "main", "master", "edge", "dev", "nightly", "beta", "alpha", "rc"]

/-- Model of the regex test `tag.match(/^v?\d/)`: an optional leading `v`
followed immediately by a decimal digit. -/
def matchVDigit (l : List Char) : Bool :=
  match l with
  | [] => false
  | c :: rest =>
    if c = 'v' then
      match rest with
      | [] => false
      | c2 :: _ => c2.isDigit
    else c.isDigit

/-- Embedding of `isPinnedVersionTag` (index.js lines 245-259). -/
def isPinnedVersionTag (tag : String) : Bool :=
  if dynamicTags.contains (jsToLower tag) then false
  else
    tag.data.any Char.isDigit &&
      (tag.data.contains '.' || tag.data.contains '-' || matchVDigit tag.data)

theorem matchVDigit_iff (l : List Char) :
    matchVDigit l = true ↔
      ((∃ c rest, l = c :: rest ∧ c.isDigit = true) ∨
        (∃ c rest, l = 'v' :: c :: rest ∧ c.isDigit = true)) := by
  rcases l with _ | ⟨c, rest⟩
  · simp [matchVDigit]
  by_cases hv : c = 'v'
  · subst hv
    rcases rest with _ | ⟨c2, l2⟩
    · constructor
      · intro h; simp [matchVDigit] at h
      · rintro (⟨c', r', h, hd⟩ | ⟨c', r', h, hd⟩)
        · injection h with h1 h2
          rw [← h1] at hd
          exact absurd hd (by decide)
        · injection h with h1 h2
          simp at h2
    · constructor
      · intro h
        refine Or.inr ⟨c2, l2, rfl, ?_⟩
        simpa [matchVDigit] using h
      · rintro (⟨c', r', h, hd⟩ | ⟨c', r', h, hd⟩)
        · injection h with h1 h2
          rw [← h1] at hd
          exact absurd hd (by decide)
        · injection h with h1 h2
          injection h2 with h3 h4
          rw [← h3] at hd
          simp [matchVDigit, hd]
  · constructor
    · intro h
      refine Or.inl ⟨c, rest, rfl, ?_⟩
      simpa [matchVDigit, hv] using h
    · rintro (⟨c', r', h, hd⟩ | ⟨c', r', h, hd⟩)
      · injection h with h1 h2
        rw [← h1] at hd
        simp [matchVDigit, hv, hd]
      · injection h with h1 h2
        exact absurd h1 hv

/-- C8: the Tag Classifier returns not-pinned exactly on the fixed floating
set (after lowercasing); otherwise it returns pinned iff the tag contains a
digit and (contains a dot, or contains a dash, or starts with an optional
`v` followed immediately by a digit); and the four quoted examples hold. -/
theorem c8_isPinnedVersionTag_spec :
    (∀ tag : String,
      isPinnedVersionTag tag = true ↔
        (jsToLower tag ∉ dynamicTags ∧
          (∃ c ∈ tag.data, c.isDigit = true) ∧
          ('.' ∈ tag.data ∨ '-' ∈ tag.data ∨
            (∃ c rest, tag.data = c :: rest ∧ c.isDigit = true) ∨
            (∃ c rest, tag.data = 'v' :: c :: rest ∧ c.isDigit = true)))) ∧
    isPinnedVersionTag "latest" = false ∧
    isPinnedVersionTag "1.22.4" = true ∧
    isPinnedVersionTag "v2.0.0-rc1" = true ∧
    isPinnedVersionTag "nightly" = false := by
  refine ⟨?_, by decide, by decide, by decide, by decide⟩
  intro tag
  unfold isPinnedVersionTag
  by_cases hm : dynamicTags.contains (jsToLower tag) = true
  · rw [if_pos hm]
    simp only [Bool.false_eq_true, false_iff]
    intro hx
    exact hx.1 (List.elem_iff.mp hm)
  · rw [if_neg (by simpa using hm)]
    have hnm : jsToLower tag ∉ dynamicTags := fun hx => hm (List.elem_iff.mpr hx)
    have hcont : ∀ x : Char, tag.data.contains x = true ↔ x ∈ tag.data :=
      fun x => List.elem_iff
    rw [Bool.and_eq_true, Bool.or_eq_true, Bool.or_eq_true, List.any_eq_true,
      matchVDigit_iff]
    constructor
    · rintro ⟨h1, h2⟩
      refine ⟨hnm, h1, ?_⟩
      rcases h2 with (h | h) | h | h
      · exact Or.inl ((hcont '.').mp h)
      · exact Or.inr (Or.inl ((hcont '-').mp h))
      · exact Or.inr (Or.inr (Or.inl h))
      · exact Or.inr (Or.inr (Or.inr h))
    · rintro ⟨-, h1, h2⟩
      refine ⟨h1, ?_⟩
      rcases h2 with h | h | h | h
      · exact Or.inl (Or.inl ((hcont '.').mpr h))
      · exact Or.inl (Or.inr ((hcont '-').mpr h))
      · exact Or.inr (Or.inl h)
      · exact Or.inr (Or.inr h)

/-! ## Self-Update Guard (index.js lines 751-752 and 943) -/

/-- Embedding of the self-update test used at index.js lines 752 and 943:
`containerId === ownId || containerId.startsWith(ownId.substring(0, 12)) || ownId.startsWith(containerId)`,
given a non-null own container id. -/
def isSelfMatch (ownId containerId : String) : Bool :=
  containerId == ownId
    || jsStartsWith containerId.data (ownId.data.take 12)
    || jsStartsWith ownId.data containerId.data

theorem jsStartsWith_iff (s p : List Char) :
    jsStartsWith s p = true ↔ ∃ t, s = p ++ t := by
  induction p generalizing s with
  | nil => simp [jsStartsWith]
  | cons c ps ih =>
    rcases s with _ | ⟨a, as⟩
    · simp [jsStartsWith]
    · simp only [jsStartsWith, Bool.and_eq_true, beq_iff_eq, ih,
        List.cons_append, List.cons.injEq]
      constructor
      · rintro ⟨h1, t, h2⟩; exact ⟨t, h1, h2⟩
      · rintro ⟨t, h1, h2⟩; exact ⟨h1, t, h2⟩

/-- Characterisation of the guard: a self-match is declared iff the target
starts with the first 12 characters of the own id, or the target is a
prefix of the own id. -/
theorem isSelfMatch_iff (ownId containerId : String) :
    isSelfMatch ownId containerId = true ↔
      ((∃ t, containerId.data = ownId.data.take 12 ++ t) ∨
        (∃ t, ownId.data = containerId.data ++ t)) := by
  unfold isSelfMatch
  rw [Bool.or_eq_true, Bool.or_eq_true, beq_iff_eq, jsStartsWith_iff, jsStartsWith_iff]
  constructor
  · rintro ((h | h) | h)
    · refine Or.inl ⟨ownId.data.drop 12, ?_⟩
      rw [h, List.take_append_drop]
    · exact Or.inl h
    · exact Or.inr h
  · rintro (h | h)
    · exact Or.inl (Or.inr h)
    · exact Or.inr h

/-- C2, counterexample: two 64-character ids that agree on their first 12
characters but diverge afterwards are declared a self-match by the guard,
although neither id is a prefix of the other — refuting the claimed
"if and only if one ID is a prefix of the other". -/
theorem c2_counterexample :
    isSelfMatch
        "aaaaaaaaaaaabbbbbbbbbbbbbbbbbbbbbbbbbbbbbbbbbbbbbbbbbbbbbbbbbbbb"
        "aaaaaaaaaaaacccccccccccccccccccccccccccccccccccccccccccccccccccc" = true ∧
    ¬ ((∃ t, ("aaaaaaaaaaaacccccccccccccccccccccccccccccccccccccccccccccccccccc" : String).data =
          ("aaaaaaaaaaaabbbbbbbbbbbbbbbbbbbbbbbbbbbbbbbbbbbbbbbbbbbbbbbbbbbb" : String).data ++ t) ∨
        (∃ t, ("aaaaaaaaaaaabbbbbbbbbbbbbbbbbbbbbbbbbbbbbbbbbbbbbbbbbbbbbbbbbbbb" : String).data =
          ("aaaaaaaaaaaacccccccccccccccccccccccccccccccccccccccccccccccccccc" : String).data ++ t)) := by
  constructor
  · decide
  · rintro (h | h)
    · have hs := (jsStartsWith_iff
        ("aaaaaaaaaaaacccccccccccccccccccccccccccccccccccccccccccccccccccc" : String).data
        ("aaaaaaaaaaaabbbbbbbbbbbbbbbbbbbbbbbbbbbbbbbbbbbbbbbbbbbbbbbbbbbb" : String).data).mpr h
      revert hs; decide
    · have hs := (jsStartsWith_iff
        ("aaaaaaaaaaaabbbbbbbbbbbbbbbbbbbbbbbbbbbbbbbbbbbbbbbbbbbbbbbbbbbb" : String).data
        ("aaaaaaaaaaaacccccccccccccccccccccccccccccccccccccccccccccccccccc" : String).data).mpr h
      revert hs; decide

/-- C2 (amended): the guard declares a self-match iff the target id starts
with the first 12 characters of the own id or the target id is a prefix of
the own id; in particular every pair where one id is a prefix of the other
(such as a 64-character id and its 12-character prefix) is matched, but the
match is strictly wider than the claimed prefix relation. -/
theorem c2_isSelfMatch_spec :
    (∀ ownId containerId : String,
      isSelfMatch ownId containerId = true ↔
        ((∃ t, containerId.data = ownId.data.take 12 ++ t) ∨
          (∃ t, ownId.data = containerId.data ++ t))) ∧
    (∀ ownId containerId : String,
      ((∃ t, containerId.data = ownId.data ++ t) ∨
        (∃ t, ownId.data = containerId.data ++ t)) →
      isSelfMatch ownId containerId = true) := by
  refine ⟨isSelfMatch_iff, ?_⟩
  intro ownId containerId h
  rw [isSelfMatch_iff]
  rcases h with ⟨t, ht⟩ | h
  · refine Or.inl ⟨ownId.data.drop 12 ++ t, ?_⟩
    rw [ht, ← List.append_assoc, List.take_append_drop]
  · exact Or.inr h

/-- C2, witness: the full 64-hex id `abc123def456...` and its 12-character
prefix `abc123def456` are matched in both directions by the guard. -/
theorem c2_witness :
    isSelfMatch "abc123def4560123456789abcdef0123456789abcdef0123456789abcdef0123"
      "abc123def456" = true ∧
    isSelfMatch "abc123def456"
      "abc123def4560123456789abcdef0123456789abcdef0123456789abcdef0123" = true :=
  ⟨c2_isSelfMatch_spec.2 _ _
      (Or.inr ⟨"0123456789abcdef0123456789abcdef0123456789abcdef0123".data, by decide⟩),
    c2_isSelfMatch_spec.2 _ _
      (Or.inl ⟨"0123456789abcdef0123456789abcdef0123456789abcdef0123".data, by decide⟩)⟩

/-! ## Log Frame Demuxer (index.js lines 570-594)

The raw log buffer is a `List Nat` of bytes.  `toString('utf8').trim()` is
modelled as an ASCII-whitespace byte trim followed by a byte-to-character
view — exact for the ASCII text the daemon's log frames carry. -/

/-- A decoded log line `{stream, message}`. -/
structure LogLine where
  stream : String
  message : String
deriving Repr, DecidableEq

/-- Model of `header.readUInt32BE(4)` on header bytes 4-7. -/
def readUInt32BE (b4 b5 b6 b7 : Nat) : Nat :=
  ((b4 * 256 + b5) * 256 + b6) * 256 + b7

/-- ASCII whitespace bytes removed by JavaScript `trim()`. -/
def wsByte (b : Nat) : Bool :=
  b == 32 || b == 9 || b == 10 || b == 13 || b == 11 || b == 12

/-- Trim of ASCII whitespace bytes from both ends of a payload. -/
def byteTrim (l : List Nat) : List Nat :=
  ((l.dropWhile wsByte).reverse.dropWhile wsByte).reverse

/-- View of a byte payload as text (one character per byte; exact for
ASCII payloads). -/
def byteStr (l : List Nat) : String :=
  String.mk (l.map Char.ofNat)

/-- Embedding of the demux loop (index.js lines 575-594): while at least 8
bytes remain, read the 8-byte header (`size` inlined as
`readUInt32BE b4 b5 b6 b7`); if fewer than `size` payload bytes remain,
stop; otherwise emit the trimmed payload when non-empty (stream 1 is
`stdout`, anything else `stderr`) and advance by `8 + size`. -/
def demuxLogs : List Nat → List LogLine
  | b0 :: _ :: _ :: _ :: b4 :: b5 :: b6 :: b7 :: rest =>
    if rest.length < readUInt32BE b4 b5 b6 b7 then []
    else
      (if byteTrim (rest.take (readUInt32BE b4 b5 b6 b7)) = [] then []
       else [⟨if b0 = 1 then "stdout" else "stderr",
              byteStr (byteTrim (rest.take (readUInt32BE b4 b5 b6 b7)))⟩])
        ++ demuxLogs (rest.drop (readUInt32BE b4 b5 b6 b7))
  | _ => []
termination_by l => l.length
decreasing_by
  simp
  omega

/-- An abstract frame: a stream byte and a payload. -/
structure Frame where
  stream : Nat
  payload : List Nat
deriving Repr, DecidableEq

/-- Wire encoding of one frame per the 8-byte-header protocol: stream byte,
three reserved zero bytes, big-endian 32-bit payload length, payload. -/
def encodeFrame (f : Frame) : List Nat :=
  f.stream :: 0 :: 0 :: 0 ::
    (f.payload.length / 16777216 % 256) :: (f.payload.length / 65536 % 256) ::
    (f.payload.length / 256 % 256) :: (f.payload.length % 256) :: f.payload

/-- The log line a frame contributes: its trimmed payload when non-empty. -/
def emitFrame (f : Frame) : Option LogLine :=
  if byteTrim f.payload = [] then none
  else some ⟨if f.stream = 1 then "stdout" else "stderr", byteStr (byteTrim f.payload)⟩

/-- A byte tail on which the decode loop immediately stops: fewer than 8
header bytes remain, or fewer payload bytes remain than the header
announces. -/
def truncatedFrame : List Nat → Prop
  | _ :: _ :: _ :: _ :: b4 :: b5 :: b6 :: b7 :: rest =>
    rest.length < readUInt32BE b4 b5 b6 b7
  | _ => True

theorem readUInt32BE_encode (n : Nat) (h : n < 4294967296) :
    readUInt32BE (n / 16777216 % 256) (n / 65536 % 256) (n / 256 % 256) (n % 256) = n := by
  unfold readUInt32BE
  omega

theorem demuxLogs_cons (b0 b1 b2 b3 b4 b5 b6 b7 : Nat) (rest : List Nat) :
    demuxLogs (b0 :: b1 :: b2 :: b3 :: b4 :: b5 :: b6 :: b7 :: rest) =
      if rest.length < readUInt32BE b4 b5 b6 b7 then []
      else
        (if byteTrim (rest.take (readUInt32BE b4 b5 b6 b7)) = [] then []
         else [⟨if b0 = 1 then "stdout" else "stderr",
                byteStr (byteTrim (rest.take (readUInt32BE b4 b5 b6 b7)))⟩])
          ++ demuxLogs (rest.drop (readUInt32BE b4 b5 b6 b7)) := by
  rw [demuxLogs.eq_def]

theorem demuxLogs_truncated (rest : List Nat) (h : truncatedFrame rest) :
    demuxLogs rest = [] := by
  rw [demuxLogs.eq_def]
  split
  · simp only [truncatedFrame] at h
    rw [if_pos h]
  · rfl

theorem demuxLogs_encode_append (f : Frame) (b : List Nat)
    (h : f.payload.length < 4294967296) :
    demuxLogs (encodeFrame f ++ b) = (emitFrame f).toList ++ demuxLogs b := by
  have hsize : readUInt32BE (f.payload.length / 16777216 % 256)
      (f.payload.length / 65536 % 256) (f.payload.length / 256 % 256)
      (f.payload.length % 256) = f.payload.length :=
    readUInt32BE_encode _ h
  unfold encodeFrame
  simp only [List.cons_append]
  rw [demuxLogs_cons, hsize,
    if_neg (by rw [List.length_append]; omega),
    List.take_left, List.drop_left]
  unfold emitFrame
  by_cases ht : byteTrim f.payload = []
  · rw [if_pos ht, if_pos ht]
    rfl
  · rw [if_neg ht, if_neg ht]
    rfl

/-- C7: the demuxer decodes any sequence of complete frames followed by a
truncated tail into exactly the in-order trimmed non-empty payloads of the
complete frames (stream byte 1 is `stdout`, 2 is `stderr`), never reading
past the buffer (the truncated tail contributes nothing); and on the quoted
two-frame example it yields `stdout "hello"` then `stderr "err"`. -/
theorem c7_demuxLogs_spec :
    (∀ (frames : List Frame) (rest : List Nat),
      (∀ f ∈ frames, f.payload.length < 4294967296) →
      truncatedFrame rest →
      demuxLogs ((frames.map encodeFrame).flatten ++ rest) =
        frames.filterMap emitFrame) ∧
    demuxLogs ([1, 0, 0, 0, 0, 0, 0, 5] ++ [104, 101, 108, 108, 111] ++
        [2, 0, 0, 0, 0, 0, 0, 3] ++ [101, 114, 114]) =
      [⟨"stdout", "hello"⟩, ⟨"stderr", "err"⟩] := by
  have main : ∀ (frames : List Frame) (rest : List Nat),
      (∀ f ∈ frames, f.payload.length < 4294967296) →
      truncatedFrame rest →
      demuxLogs ((frames.map encodeFrame).flatten ++ rest) =
        frames.filterMap emitFrame := by
    intro frames rest hlen htr
    induction frames with
    | nil => simpa using demuxLogs_truncated rest htr
    | cons f fs ih =>
      simp only [List.map_cons, List.flatten_cons, List.append_assoc,
        List.filterMap_cons]
      rw [demuxLogs_encode_append f _ (hlen f (by simp)),
        ih (fun g hg => hlen g (by simp [hg]))]
      cases emitFrame f <;> simp
  refine ⟨main, ?_⟩
  have h := main [⟨1, [104, 101, 108, 108, 111]⟩, ⟨2, [101, 114, 114]⟩] []
    (by decide) trivial
  rw [show ([1, 0, 0, 0, 0, 0, 0, 5] ++ [104, 101, 108, 108, 111] ++
      [2, 0, 0, 0, 0, 0, 0, 3] ++ [101, 114, 114] : List Nat) =
      (([⟨1, [104, 101, 108, 108, 111]⟩, ⟨2, [101, 114, 114]⟩] :
        List Frame).map encodeFrame).flatten ++ [] from by decide, h]
  decide

/-- C7, witness: the general frame theorem applied to the two example
frames followed by a 3-byte truncated tail. -/
theorem c7_witness :
    demuxLogs ((([⟨1, [104, 101, 108, 108, 111]⟩, ⟨2, [101, 114, 114]⟩] :
        List Frame).map encodeFrame).flatten ++ [9, 9, 9]) =
      [⟨"stdout", "hello"⟩, ⟨"stderr", "err"⟩] := by
  rw [c7_demuxLogs_spec.1 [⟨1, [104, 101, 108, 108, 111]⟩, ⟨2, [101, 114, 114]⟩]
    [9, 9, 9] (by decide) (by trivial)]
  decide

/-! ## Update Cache and Update Detector (`checkImageUpdate`, index.js lines 55-57 and 262-373)

The `Map` cache is an association list; `Date.now()` is the explicit `now`
argument; the two `getRemoteDigest` network calls are an environment
function returning `Except` (promise rejection is `.error`); the third
component of the result counts how many `getRemoteDigest` requests the call
performed.  A fulfilled `getRemoteDigest` always carries a truthy digest
(the source only resolves when the header is present), and JavaScript's
truthiness tests on strings are modelled as `≠ ""` checks. -/

/-- One element of `docker.listImages({all: true})`. -/
structure DockerImage where
  Id : String
  RepoTags : List String
  RepoDigests : List String
deriving Repr, DecidableEq

/-- The registry/daemon data a detection pass consumes. -/
structure RegistryEnv where
  remoteDigest : String → Except String String
  localImages : List DockerImage

/-- The cached detection result (§3 UpdateCacheEntry).  Fields the source
leaves `null` or absent are `none`. -/
structure UpdateEntry where
  hasUpdate : Bool
  checkedAt : Option Nat := none
  remoteDigest : Option String := none
  localDigest : Option String := none
  localImageId : Option String := none
  latestDigest : Option String := none
  isPinnedVersion : Option Bool := none
  error : Option String := none
deriving Repr, DecidableEq

/-- The in-memory cache `updateCache`, keyed by raw image name. -/
abbrev Cache := List (String × UpdateEntry)

/-- Model of `updateCache.get(k)`. -/
def cacheGet (c : Cache) (k : String) : Option UpdateEntry :=
  (c.find? (fun p => p.1 == k)).map (·.2)

/-- Model of `updateCache.set(k, v)`. -/
def cacheSet (c : Cache) (k : String) (v : UpdateEntry) : Cache :=
  (k, v) :: c.filter (fun p => !(p.1 == k))

/-- Model of `updateCache.delete(k)`. -/
def cacheDelete (c : Cache) (k : String) : Cache :=
  c.filter (fun p => !(p.1 == k))

/-- `CACHE_TTL` (index.js line 57): five minutes in milliseconds. -/
def CACHE_TTL : Nat := 5 * 60 * 1000

/-- The cache-hit test (index.js lines 270-274): entry still within TTL and
recorded `localImageId` equal to the current one.  A missing `checkedAt`
makes the age comparison `NaN < TTL`, i.e. false. -/
def cacheHit (cached : UpdateEntry) (now : Nat) (localImageId : String) : Bool :=
  (match cached.checkedAt with
   | some t => decide (now - t < CACHE_TTL)
   | none => false) && (cached.localImageId == some localImageId)

/-- Tag-based match of a local image (index.js lines 297-303): exact repo
tag, implicit-`:latest` equivalence in either direction. -/
def matchesName (imageName : String) (img : DockerImage) : Bool :=
  img.RepoTags.any fun t =>
    t == imageName
    || (t == imageName ++ ":latest" && !(imageName.data.contains ':'))
    || (jsEndsWith imageName.data (":latest".data) &&
        t == String.mk (replaceFirst imageName.data (":latest".data)))

/-- Id-based match of a local image (index.js line 306): exact id or with a
`sha256:` front marker stripped from both sides. -/
def matchesId (localImageId : String) (img : DockerImage) : Bool :=
  img.Id == localImageId
    || String.mk (replaceFirst img.Id.data ("sha256:".data))
        == String.mk (replaceFirst localImageId.data ("sha256:".data))

/-- Model of `rd.split('@')[1]`: the text between the first `@` and the
next `@` (or the end). -/
def splitAtSign (l : List Char) : List Char :=
  match splitFirst '@' l with
  | some (_, a) => a.takeWhile (fun c => !(c == '@'))
  | none => []

/-- Digest extraction from a matched image's `RepoDigests`
(index.js lines 310-316): the first entry containing `@sha256:`. -/
def digestFromRepoDigests (rds : List String) : Option String :=
  match rds.find? (fun rd => listInfix ("@sha256:".data) rd.data) with
  | some rd => some (String.mk (splitAtSign rd.data))
  | none => none

/-- The local-digest lookup loop (index.js lines 292-319): the first image
matching by name or id supplies the digest. -/
def findLocalDigest (imgs : List DockerImage) (imageName localImageId : String) :
    Option String :=
  match imgs.find? (fun img => matchesName imageName img || matchesId localImageId img) with
  | some img => digestFromRepoDigests img.RepoDigests
  | none => none

/-- Digest comparison (index.js line 324):
`!!(remoteDigest && localDigest && remoteDigest !== localDigest)`. -/
def initialHasUpdate (remoteDigest : String) (localDigest : Option String) : Bool :=
  !(remoteDigest == "") &&
    (match localDigest with
     | some d => !(d == "") && !(remoteDigest == d)
     | none => false)

/-- The pinned-tag `latest` probe (index.js lines 327-345): when the digest
comparison has not flagged an update, the tag is pinned and the registry is
Docker Hub, additionally fetch the `latest` digest of the same repository;
a differing truthy digest flips `hasUpdate` to true, a rejection is
swallowed.  Returns the final `hasUpdate`, the recorded `latestDigest`,
and how many extra registry requests were made. -/
def latestProbe (env : RegistryEnv) (imageName remoteDigest : String)
    (localDigest : Option String) : Bool × Option String × Nat :=
  if initialHasUpdate remoteDigest localDigest = false ∧
      isPinnedVersionTag (parseImageName imageName).tag = true ∧
      (parseImageName imageName).registry = "registry-1.docker.io" then
    match env.remoteDigest ((parseImageName imageName).repository ++ ":latest") with
    | .ok d =>
      (if (!(d == "") && !(remoteDigest == "") && !(d == remoteDigest)) = true
       then true else initialHasUpdate remoteDigest localDigest, some d, 1)
    | .error _ => (initialHasUpdate remoteDigest localDigest, none, 1)
  else (initialHasUpdate remoteDigest localDigest, none, 0)

/-- The catch-path result object (index.js lines 364-369). -/
def errEntryOf (now : Nat) (localImageId msg : String) : UpdateEntry :=
  { hasUpdate := false, checkedAt := some now,
    localImageId := some localImageId, error := some msg }

/-- The success result object (index.js lines 347-356). -/
def freshEntry (env : RegistryEnv) (now : Nat) (imageName localImageId remoteDigest : String) :
    UpdateEntry :=
  { hasUpdate := (latestProbe env imageName remoteDigest
      (findLocalDigest env.localImages imageName localImageId)).1,
    checkedAt := some now,
    remoteDigest := some remoteDigest,
    localDigest := findLocalDigest env.localImages imageName localImageId,
    localImageId := some localImageId,
    latestDigest := (latestProbe env imageName remoteDigest
      (findLocalDigest env.localImages imageName localImageId)).2.1,
    isPinnedVersion := some (isPinnedVersionTag (parseImageName imageName).tag),
    error := none }

/-- The body of `checkImageUpdate`'s `try` block after a cache miss
(index.js lines 278-372): main digest fetch, local-digest lookup, the
pinned-tag `latest` probe, and the store of either the full success entry
or the catch-path error entry. -/
def checkFresh (env : RegistryEnv) (now : Nat) (imageName localImageId : String)
    (cache : Cache) : UpdateEntry × Cache × Nat :=
  match env.remoteDigest imageName with
  | .error msg =>
    (errEntryOf now localImageId msg,
      cacheSet cache imageName (errEntryOf now localImageId msg), 1)
  | .ok remoteDigest =>
    (freshEntry env now imageName localImageId remoteDigest,
      cacheSet cache imageName (freshEntry env now imageName localImageId remoteDigest),
      1 + (latestProbe env imageName remoteDigest
        (findLocalDigest env.localImages imageName localImageId)).2.2)

/-- Embedding of `checkImageUpdate` (index.js lines 262-373): the early
return for unnamed / digest-only images, the TTL- and rollback-aware cache
hit, and otherwise the fresh pass `checkFresh`. -/
def checkImageUpdate (env : RegistryEnv) (now : Nat) (imageName localImageId : String)
    (cache : Cache) : UpdateEntry × Cache × Nat :=
  if imageName = "" ∨ jsStartsWith imageName.data ("sha256:".data) = true then
    ({ hasUpdate := false, error := some "No image tag" }, cache, 0)
  else
    match cacheGet cache imageName with
    | some cached =>
      if cacheHit cached now localImageId then (cached, cache, 0)
      else checkFresh env now imageName localImageId cache
    | none => checkFresh env now imageName localImageId cache

theorem cacheGet_set (c : Cache) (k : String) (v : UpdateEntry) :
    cacheGet (cacheSet c k v) k = some v := by
  simp [cacheGet, cacheSet, List.find?_cons_of_pos]

theorem checkFresh_proj (env : RegistryEnv) (now : Nat) (img lid : String) (cache : Cache) :
    (checkFresh env now img lid cache).1.checkedAt = some now ∧
    (checkFresh env now img lid cache).1.localImageId = some lid ∧
    (checkFresh env now img lid cache).2.1 =
      cacheSet cache img (checkFresh env now img lid cache).1 ∧
    1 ≤ (checkFresh env now img lid cache).2.2 := by
  unfold checkFresh
  rcases henv : env.remoteDigest img with msg | rd
  · exact ⟨rfl, rfl, rfl, Nat.le_refl 1⟩
  · exact ⟨rfl, rfl, rfl, Nat.le_add_right 1 _⟩

theorem checkImageUpdate_fresh (env : RegistryEnv) (now : Nat) (img lid : String)
    (cache : Cache) (hget : cacheGet cache img = none)
    (hearly : ¬(img = "" ∨ jsStartsWith img.data ("sha256:".data) = true)) :
    checkImageUpdate env now img lid cache = checkFresh env now img lid cache := by
  unfold checkImageUpdate
  rw [if_neg hearly, hget]

/-- C3: a detection call on an uncached image stores its result, and a
second call within the TTL with the same local image id returns that exact
entry with the cache unchanged and zero registry requests, whatever the
registry would now answer; conversely, when the cached entry's recorded
`localImageId` differs from the current one, the call re-runs the fresh
pass — at least one registry request and a fresh `checkedAt` — even inside
the TTL window. -/
theorem c3_cache_spec :
    (∀ (env env2 : RegistryEnv) (now now2 : Nat) (img lid : String) (cache : Cache),
      cacheGet cache img = none →
      now2 - now < CACHE_TTL →
      checkImageUpdate env2 now2 img lid (checkImageUpdate env now img lid cache).2.1 =
        ((checkImageUpdate env now img lid cache).1,
          (checkImageUpdate env now img lid cache).2.1, 0)) ∧
    (∀ (env : RegistryEnv) (now : Nat) (img lid : String) (cache : Cache) (e : UpdateEntry),
      cacheGet cache img = some e →
      e.localImageId ≠ some lid →
      ¬(img = "" ∨ jsStartsWith img.data ("sha256:".data) = true) →
      1 ≤ (checkImageUpdate env now img lid cache).2.2 ∧
        (checkImageUpdate env now img lid cache).1.checkedAt = some now) := by
  constructor
  · intro env env2 now now2 img lid cache hget htl
    by_cases hearly : img = "" ∨ jsStartsWith img.data ("sha256:".data) = true
    · have h1 : checkImageUpdate env now img lid cache =
          ({ hasUpdate := false, error := some "No image tag" }, cache, 0) := by
        unfold checkImageUpdate; rw [if_pos hearly]
      have h2 : checkImageUpdate env2 now2 img lid cache =
          ({ hasUpdate := false, error := some "No image tag" }, cache, 0) := by
        unfold checkImageUpdate; rw [if_pos hearly]
      rw [h1]
      exact h2
    · obtain ⟨hca, hli, hsnd, -⟩ := checkFresh_proj env now img lid cache
      have h1 := checkImageUpdate_fresh env now img lid cache hget hearly
      have hhit : cacheHit (checkFresh env now img lid cache).1 now2 lid = true := by
        unfold cacheHit
        rw [hca, hli]
        simp [htl]
      have h2 : checkImageUpdate env2 now2 img lid (checkFresh env now img lid cache).2.1 =
          ((checkFresh env now img lid cache).1,
            (checkFresh env now img lid cache).2.1, 0) := by
        unfold checkImageUpdate
        rw [if_neg hearly, hsnd, cacheGet_set]
        simp [hhit, hsnd]
      rw [h1]
      exact h2
  · intro env now img lid cache e hget hne hearly
    have hb : (e.localImageId == some lid) = false := by
      simp [hne]
    have hh : cacheHit e now lid = false := by
      unfold cacheHit
      rw [hb, Bool.and_false]
    have h1 : checkImageUpdate env now img lid cache = checkFresh env now img lid cache := by
      unfold checkImageUpdate
      rw [if_neg hearly, hget]
      simp [hh]
    obtain ⟨hca, -, -, hreq⟩ := checkFresh_proj env now img lid cache
    rw [h1]
    exact ⟨hreq, hca⟩

/-- A registry environment whose digest fetch always succeeds. -/
def regEnvOk : RegistryEnv := ⟨fun _ => .ok "sha256:r", []⟩

/-- A registry environment whose digest fetch always rejects. -/
def regEnvErr : RegistryEnv := ⟨fun _ => .error "net", []⟩

/-- A cache entry recorded at time 0 under local image id `"id1"`. -/
def staleEntry : UpdateEntry :=
  { hasUpdate := false, checkedAt := some 0, localImageId := some "id1" }

/-- C3, witness: a fresh check at time 0 followed by a second call at time
1000 (within the TTL) with an unchanged local image id returns the stored
entry unchanged with zero requests; and a cached entry recorded under a
different local image id forces a fresh pass. -/
theorem c3_witness :
    (checkImageUpdate regEnvErr 1000 "nginx" "id1"
        (checkImageUpdate regEnvOk 0 "nginx" "id1" []).2.1 =
      ((checkImageUpdate regEnvOk 0 "nginx" "id1" []).1,
        (checkImageUpdate regEnvOk 0 "nginx" "id1" []).2.1, 0)) ∧
    (1 ≤ (checkImageUpdate regEnvOk 7 "nginx" "id2" [("nginx", staleEntry)]).2.2 ∧
      (checkImageUpdate regEnvOk 7 "nginx" "id2"
        [("nginx", staleEntry)]).1.checkedAt = some 7) :=
  ⟨c3_cache_spec.1 regEnvOk regEnvErr 0 1000 "nginx" "id1" [] rfl (by decide),
    c3_cache_spec.2 regEnvOk 7 "nginx" "id2" [("nginx", staleEntry)] staleEntry
      rfl (by decide) (by decide)⟩

/-- C4: when the main digest fetch rejects, the detection pass returns
normally (the embedding is a total function) with a complete cache entry
whose `hasUpdate` is false and whose `error` carries the exception message,
and stores that same entry in the cache. -/
theorem c4_detection_error_spec :
    ∀ (env : RegistryEnv) (now : Nat) (img lid : String) (cache : Cache) (msg : String),
      cacheGet cache img = none →
      ¬(img = "" ∨ jsStartsWith img.data ("sha256:".data) = true) →
      env.remoteDigest img = .error msg →
      (checkImageUpdate env now img lid cache).1 =
        { hasUpdate := false, checkedAt := some now,
          localImageId := some lid, error := some msg } ∧
      cacheGet (checkImageUpdate env now img lid cache).2.1 img =
        some (checkImageUpdate env now img lid cache).1 := by
  intro env now img lid cache msg hget hearly herr
  have h1 := checkImageUpdate_fresh env now img lid cache hget hearly
  have h2 : checkFresh env now img lid cache =
      ({ hasUpdate := false, checkedAt := some now,
         localImageId := some lid, error := some msg },
        cacheSet cache img
          { hasUpdate := false, checkedAt := some now,
            localImageId := some lid, error := some msg }, 1) := by
    unfold checkFresh
    rw [herr]
    rfl
  rw [h1, h2]
  exact ⟨rfl, cacheGet_set cache img _⟩

/-- A registry environment whose digest fetch always rejects with `"boom"`. -/
def regEnvBoom : RegistryEnv := ⟨fun _ => .error "boom", []⟩

/-- C4, witness: the theorem applied to an environment whose digest fetch
always rejects with message `"boom"`. -/
theorem c4_witness :
    (checkImageUpdate regEnvBoom 5 "nginx:1.2" "idl" []).1 =
      { hasUpdate := false, checkedAt := some 5,
        localImageId := some "idl", error := some "boom" } ∧
    cacheGet (checkImageUpdate regEnvBoom 5 "nginx:1.2" "idl" []).2.1 "nginx:1.2" =
      some (checkImageUpdate regEnvBoom 5 "nginx:1.2" "idl" []).1 :=
  c4_detection_error_spec regEnvBoom 5 "nginx:1.2" "idl" [] "boom" rfl (by decide) rfl

/-- C9: on a fresh pass whose digest comparison has not flagged an update,
with a pinned tag on Docker Hub, the detector performs exactly one extra
registry request for the repository's `latest` tag and sets `hasUpdate`
true exactly when that fetch succeeds with a digest different from the
current tag's remote digest; a rejected extra fetch leaves the check
successful (`error` is `none`) and the full result is stored. -/
theorem c9_pinned_latest_spec :
    ∀ (env : RegistryEnv) (now : Nat) (img lid : String) (cache : Cache) (rd : String),
      cacheGet cache img = none →
      ¬(img = "" ∨ jsStartsWith img.data ("sha256:".data) = true) →
      env.remoteDigest img = .ok rd →
      (∀ s d, env.remoteDigest s = .ok d → d ≠ "") →
      initialHasUpdate rd (findLocalDigest env.localImages img lid) = false →
      isPinnedVersionTag (parseImageName img).tag = true →
      (parseImageName img).registry = "registry-1.docker.io" →
      (((checkImageUpdate env now img lid cache).1.hasUpdate = true ↔
          (∃ d, env.remoteDigest ((parseImageName img).repository ++ ":latest") = .ok d ∧
            d ≠ rd)) ∧
        (checkImageUpdate env now img lid cache).1.error = none ∧
        (checkImageUpdate env now img lid cache).2.2 = 2 ∧
        cacheGet (checkImageUpdate env now img lid cache).2.1 img =
          some (checkImageUpdate env now img lid cache).1) := by
  intro env now img lid cache rd hget hearly hok hwf hhu0 hpin hreg
  have h1 := checkImageUpdate_fresh env now img lid cache hget hearly
  have hrd : rd ≠ "" := hwf img rd hok
  have h2 : checkFresh env now img lid cache =
      (freshEntry env now img lid rd, cacheSet cache img (freshEntry env now img lid rd),
        1 + (latestProbe env img rd (findLocalDigest env.localImages img lid)).2.2) := by
    unfold checkFresh
    rw [hok]
  rw [h1, h2]
  rcases hl : env.remoteDigest ((parseImageName img).repository ++ ":latest") with msg | d
  · have hp : latestProbe env img rd (findLocalDigest env.localImages img lid) =
        (initialHasUpdate rd (findLocalDigest env.localImages img lid), none, 1) := by
      unfold latestProbe
      rw [if_pos ⟨hhu0, hpin, hreg⟩, hl]
    refine ⟨?_, rfl, ?_, cacheGet_set cache img _⟩
    · constructor
      · intro h
        have hfe : (freshEntry env now img lid rd).hasUpdate = false := by
          show (latestProbe env img rd (findLocalDigest env.localImages img lid)).1 = false
          rw [hp]
          exact hhu0
        rw [hfe] at h
        exact absurd h (by simp)
      · rintro ⟨d', hl', -⟩
        exact absurd hl' (by simp)
    · show 1 + (latestProbe env img rd (findLocalDigest env.localImages img lid)).2.2 = 2
      rw [hp]
      rfl
  · have hd : d ≠ "" := hwf _ d hl
    have hp : latestProbe env img rd (findLocalDigest env.localImages img lid) =
        (if (!(d == "") && !(rd == "") && !(d == rd)) = true then true
         else initialHasUpdate rd (findLocalDigest env.localImages img lid), some d, 1) := by
      unfold latestProbe
      rw [if_pos ⟨hhu0, hpin, hreg⟩, hl]
    refine ⟨?_, rfl, ?_, cacheGet_set cache img _⟩
    · have hhu : (freshEntry env now img lid rd).hasUpdate =
          (if (!(d == "") && !(rd == "") && !(d == rd)) = true then true
           else initialHasUpdate rd (findLocalDigest env.localImages img lid)) := by
        show (latestProbe env img rd (findLocalDigest env.localImages img lid)).1 = _
        rw [hp]
      rw [hhu]
      constructor
      · intro h
        refine ⟨d, rfl, ?_⟩
        intro heq
        have hc : (!(d == "") && !(rd == "") && !(d == rd)) = false := by
          have hbe : (d == rd) = true := by rw [beq_iff_eq]; exact heq
          simp [hbe]
        rw [hc] at h
        simp [hhu0] at h
      · rintro ⟨d', hl', hne⟩
        injection hl' with hdd
        subst hdd
        have hc : (!(d == "") && !(rd == "") && !(d == rd)) = true := by
          simp [hd, hrd, hne]
        rw [hc]
        simp
    · show 1 + (latestProbe env img rd (findLocalDigest env.localImages img lid)).2.2 = 2
      rw [hp]
      rfl

/-- C9, witness: the theorem applied to a pinned Docker Hub image whose
`latest` digest equals the current tag's digest, so no update is flagged,
the check stays error-free with two registry requests, and the result is
cached. -/
theorem c9_witness :
    (((checkImageUpdate regEnvOk 3 "nginx:1.22.4" "idl" []).1.hasUpdate = true ↔
        (∃ d, regEnvOk.remoteDigest
            ((parseImageName "nginx:1.22.4").repository ++ ":latest") = .ok d ∧
          d ≠ "sha256:r")) ∧
      (checkImageUpdate regEnvOk 3 "nginx:1.22.4" "idl" []).1.error = none ∧
      (checkImageUpdate regEnvOk 3 "nginx:1.22.4" "idl" []).2.2 = 2 ∧
      cacheGet (checkImageUpdate regEnvOk 3 "nginx:1.22.4" "idl" []).2.1 "nginx:1.22.4" =
        some (checkImageUpdate regEnvOk 3 "nginx:1.22.4" "idl" []).1) :=
  c9_pinned_latest_spec regEnvOk 3 "nginx:1.22.4" "idl" [] "sha256:r" rfl (by decide) rfl
    (fun s d h => by injection h with h'; rw [← h']; decide)
    (by decide) (by decide) (by decide)

/-! ## Container Recreator: single update (index.js lines 732-906) and
"update all" (index.js lines 909-1074)

Every Docker daemon call the endpoints issue is recorded in an action
trace; its outcome comes from an explicit environment.  `container.stop()`
appears in the trace but has no outcome in the environment because both
endpoints swallow every stop failure.  `new Date().toISOString()`
timestamps are not modelled (no claim concerns them). -/

/-- A call issued to the Docker daemon. -/
inductive DockerAction where
  | inspect (id : String)
  | pull (image : String)
  | stop (id : String)
  | remove (id : String)
  | create (name image : String)
  | start (name : String)
  | inspectNew (name : String)
deriving Repr, DecidableEq

/-- The fields of `container.inspect()` the endpoints read: `Name`,
`Config.Image` and `Image` (the image id). -/
structure ContainerInfo where
  Name : String
  ConfigImage : String
  Image : String
deriving Repr, DecidableEq

/-- One element of `docker.listContainers({all: false})`. -/
structure PsContainer where
  Id : String
  Names : List String
deriving Repr, DecidableEq

/-- The daemon/registry environment of the update endpoints. -/
structure DockerEnv where
  registry : RegistryEnv
  inspect : String → Except String ContainerInfo
  pull : String → Except String Unit
  remove : String → Except String Unit
  create : String → String → Except String Unit
  start : String → Except String Unit
  inspectNew : String → Except String ContainerInfo
  ownId : Option String
  listRunning : List PsContainer

/-- An `UpdateLogEntry` of the in-memory journal `updateLogs`. -/
structure LogEntry where
  id : String
  containerName : String
  oldImage : String
  oldImageId : String
  newImage : String
  newImageId : String
  status : String
  message : String
deriving Repr, DecidableEq

/-- The server's mutable state: `updateCache`, `updateLogs` (newest first)
and `logIdCounter`. -/
structure ServerState where
  cache : Cache
  logs : List LogEntry
  logIdCounter : Nat
deriving Repr, DecidableEq

/-- The JSON body of a single-container update response. -/
structure UpdateResponse where
  success : Bool
  message : String := ""
  selfUpdate : Bool := false
  manualRestartRequired : Bool := false
  imageChanged : Bool := false
  tagChanged : Bool := false
  errorDetails : Option String := none
deriving Repr, DecidableEq

/-- Model of `info.Name.replace(/^\//, '')`. -/
def stripLeadingSlash (s : String) : String :=
  match s.data with
  | '/' :: rest => String.mk rest
  | _ => s

/-- Model of the catch handler's
`updateLogs.find(l => l.id === ...)` followed by the in-place mutation to
`failed` (index.js lines 898-902): the first entry with the given id. -/
def markFailedLogs (logs : List LogEntry) (targetId msg : String) : List LogEntry :=
  match logs with
  | [] => []
  | e :: rest =>
    if e.id = targetId then { e with status := "failed", message := msg } :: rest
    else e :: markFailedLogs rest targetId msg

/-- Model of the batch catch handler's
`updateLogs.find(l => l.containerName === ... && l.status === 'in-progress')`
mutation (index.js lines 1053-1057). -/
def markFailedByName (logs : List LogEntry) (nm msg : String) : List LogEntry :=
  match logs with
  | [] => []
  | e :: rest =>
    if e.containerName = nm ∧ e.status = "in-progress" then
      { e with status := "failed", message := msg } :: rest
    else e :: markFailedByName rest nm msg

/-- In-place mutation of this request's own log entry (referenced by id). -/
def setLogById (logs : List LogEntry) (targetId : String) (f : LogEntry → LogEntry) :
    List LogEntry :=
  match logs with
  | [] => []
  | e :: rest =>
    if e.id = targetId then f e :: rest
    else e :: setLogById rest targetId f

/-- The guard as the endpoints evaluate it (index.js lines 751-752):
false when no own container id was determined. -/
def isSelfFor (env : DockerEnv) (containerId : String) : Bool :=
  match env.ownId with
  | some own => isSelfMatch own containerId
  | none => false

/-- Target computation of the single update (index.js lines 744-748):
returns `(currentTag, newTag, targetImageName)`.  With a requested tag the
target is rebuilt from the parsed reference (registry-qualified unless on
Docker Hub); without one the original image name is reused verbatim. -/
def computeTarget (originalImageName : String) (targetTag : Option String) :
    String × String × String :=
  match targetTag with
  | some t =>
    ((parseImageName originalImageName).tag, t,
      if (parseImageName originalImageName).registry = "registry-1.docker.io" then
        (parseImageName originalImageName).repository ++ ":" ++ t
      else
        (parseImageName originalImageName).registry ++ "/" ++
          (parseImageName originalImageName).repository ++ ":" ++ t)
  | none =>
    ((parseImageName originalImageName).tag, (parseImageName originalImageName).tag,
      originalImageName)

/-- The destructive sequence shared by both endpoints: stop (failure
swallowed), remove, create, start, inspect of the new container.  Returns
the new container's inspect result (or the first failure) together with
the daemon calls issued. -/
def recreateSteps (env : DockerEnv) (containerId containerName targetImageName : String) :
    Except String ContainerInfo × List DockerAction :=
  match env.remove containerId with
  | .error msg => (.error msg, [.stop containerId, .remove containerId])
  | .ok _ =>
    match env.create containerName targetImageName with
    | .error msg =>
      (.error msg,
        [.stop containerId, .remove containerId, .create containerName targetImageName])
    | .ok _ =>
      match env.start containerName with
      | .error msg =>
        (.error msg,
          [.stop containerId, .remove containerId,
            .create containerName targetImageName, .start containerName])
      | .ok _ =>
        match env.inspectNew containerName with
        | .error msg =>
          (.error msg,
            [.stop containerId, .remove containerId,
              .create containerName targetImageName, .start containerName,
              .inspectNew containerName])
        | .ok newInfo =>
          (.ok newInfo,
            [.stop containerId, .remove containerId,
              .create containerName targetImageName, .start containerName,
              .inspectNew containerName])

/-- The 500 response of the single update's catch handler. -/
def failResp (msg : String) : UpdateResponse :=
  { success := false, message := "Failed to update container", errorDetails := some msg }

/-- Embedding of `POST /api/containers/:id/update` (index.js lines
732-906): inspect, target computation, Self-Update Guard, log entry
creation, pull; then either the guarded self-update no-op path or the
stop/remove/create/start recreation; the catch handler marks the log entry
with id `String(logIdCounter - 1)` as failed. -/
def updateContainer (env : DockerEnv) (containerId : String) (targetTag : Option String)
    (st : ServerState) : UpdateResponse × ServerState × List DockerAction :=
  match env.inspect containerId with
  | .error msg =>
    (failResp msg,
      { st with logs := (markFailedLogs st.logs (toString (st.logIdCounter - 1))
          ("Failed to update: " ++ msg)) },
      [.inspect containerId])
  | .ok info =>
    let containerName := stripLeadingSlash info.Name
    let targetImageName := (computeTarget info.ConfigImage targetTag).2.2
    let logEntry : LogEntry :=
      { id := toString st.logIdCounter, containerName := containerName,
        oldImage := (computeTarget info.ConfigImage targetTag).1,
        oldImageId := jsSubstring info.Image 0 12,
        newImage := (computeTarget info.ConfigImage targetTag).2.1, newImageId := "",
        status := "in-progress",
        message := if isSelfFor env containerId = true then
            "Updating " ++ containerName ++ " (self-update)..."
          else
            "Updating " ++ containerName ++ " to " ++
              (computeTarget info.ConfigImage targetTag).2.1 ++ "..." }
    let st1 : ServerState :=
      { st with logs := logEntry :: st.logs, logIdCounter := st.logIdCounter + 1 }
    match env.pull targetImageName with
    | .error msg =>
      (failResp msg,
        { st1 with logs := (markFailedLogs st1.logs (toString (st1.logIdCounter - 1))
            ("Failed to update: " ++ msg)) },
        [.inspect containerId, .pull targetImageName])
    | .ok _ =>
      if isSelfFor env containerId = true then
        ({ success := true,
           message := "Image pulled for " ++ containerName ++
             ". To complete the self-update, please run: docker compose up -d --force-recreate",
           selfUpdate := true, manualRestartRequired := true },
          { st1 with
            cache := cacheDelete (cacheDelete st1.cache targetImageName) info.ConfigImage,
            logs := (setLogById st1.logs logEntry.id (fun e =>
              { e with
                status := "success",
                newImage := (computeTarget info.ConfigImage targetTag).2.1,
                message := "Image pulled for " ++ containerName ++
                  ". Please restart the container manually using: docker compose up -d --force-recreate dockermaid" })) },
          [.inspect containerId, .pull targetImageName])
      else
        match recreateSteps env containerId containerName targetImageName with
        | (.error msg, tr) =>
          (failResp msg,
            { st1 with logs := (markFailedLogs st1.logs (toString (st1.logIdCounter - 1))
                ("Failed to update: " ++ msg)) },
            [.inspect containerId, .pull targetImageName] ++ tr)
        | (.ok newInfo, tr) =>
          ({ success := true,
             message := "Container " ++ containerName ++ " updated successfully",
             imageChanged := decide (info.Image ≠ newInfo.Image),
             tagChanged := decide ((computeTarget info.ConfigImage targetTag).1 ≠
               (computeTarget info.ConfigImage targetTag).2.1) },
            { st1 with
              cache := cacheDelete (cacheDelete st1.cache targetImageName) info.ConfigImage,
              logs := (setLogById st1.logs logEntry.id (fun e =>
                { e with
                  status := "success",
                  newImage := (computeTarget info.ConfigImage targetTag).2.1,
                  newImageId := jsSubstring newInfo.Image 0 12,
                  message := if decide ((computeTarget info.ConfigImage targetTag).1 ≠
                      (computeTarget info.ConfigImage targetTag).2.1) = true then
                      "Updated " ++ containerName ++ ": " ++
                        (computeTarget info.ConfigImage targetTag).1 ++ " → " ++
                        (computeTarget info.ConfigImage targetTag).2.1
                    else if decide (info.Image ≠ newInfo.Image) = true then
                      "Updated " ++ containerName ++ " to latest " ++
                        (computeTarget info.ConfigImage targetTag).2.1
                    else "Recreated " ++ containerName ++ " (no changes)" })) },
            [.inspect containerId, .pull targetImageName] ++ tr)

/-- One element of the batch response's `results` array.  Fields a given
outcome object does not carry default to `""`/`false`. -/
structure BatchItem where
  containerId : String
  containerName : String
  status : String
  message : String := ""
  oldTag : String := ""
  newTag : String := ""
  selfUpdate : Bool := false
  error : String := ""
deriving Repr, DecidableEq

/-- The JSON body of the batch response. -/
structure BatchResponse where
  success : Bool
  results : List BatchItem
  selfUpdateSkipped : Bool
  selfUpdateContainerName : Option String
  message : String
deriving Repr, DecidableEq

/-- Model of `containerInfo.Names[0]?.replace(/^\//, '') || 'unknown'`. -/
def psName (c : PsContainer) : String :=
  match c.Names.head? with
  | some n => if stripLeadingSlash n = "" then "unknown" else stripLeadingSlash n
  | none => "unknown"

/-- Batch retargeting (index.js line 963): a pinned tag moves to `latest`,
a floating tag is re-pulled. -/
def batchNewTag (imageName : String) : String :=
  if isPinnedVersionTag (parseImageName imageName).tag = true then "latest"
  else (parseImageName imageName).tag

/-- Batch target image name (index.js lines 964-966). -/
def batchTargetImage (imageName : String) : String :=
  if (parseImageName imageName).registry = "registry-1.docker.io" then
    (parseImageName imageName).repository ++ ":" ++ batchNewTag imageName
  else
    (parseImageName imageName).registry ++ "/" ++
      (parseImageName imageName).repository ++ ":" ++ batchNewTag imageName

/-- One iteration of the "update all" loop (index.js lines 919-1059):
inspect, skip digest-only images, skip when no update is detected, skip a
guard-matched self container (surfacing its name), otherwise retarget
(pinned tags move to `latest`), log, pull and recreate; the per-iteration
catch marks the in-progress entry of this container name as failed.
Returns the outcome entry, the new state, the daemon calls issued, and the
skipped self container's name when this iteration was a self skip. -/
def processOne (env : DockerEnv) (now : Nat) (c : PsContainer) (st : ServerState) :
    BatchItem × ServerState × List DockerAction × Option String :=
  match env.inspect c.Id with
  | .error msg =>
    ({ containerId := c.Id, containerName := psName c, status := "failed", error := msg },
      { st with logs := (markFailedByName st.logs (psName c) ("Failed: " ++ msg)) },
      [.inspect c.Id], none)
  | .ok info =>
    if jsStartsWith info.ConfigImage.data ("sha256:".data) = true then
      ({ containerId := c.Id, containerName := psName c, status := "skipped",
         message := "No image tag" }, st, [.inspect c.Id], none)
    else
      let chk := checkImageUpdate env.registry now info.ConfigImage info.Image st.cache
      let st1 : ServerState := { st with cache := chk.2.1 }
      if chk.1.hasUpdate = false then
        ({ containerId := c.Id, containerName := psName c, status := "skipped",
           message := "No update available" }, st1, [.inspect c.Id], none)
      else
        if isSelfFor env c.Id = true then
          ({ containerId := c.Id, containerName := psName c, status := "skipped",
             message := "Self-update skipped. Please update DockerMaid manually using: docker compose up -d --force-recreate",
             selfUpdate := true }, st1, [.inspect c.Id], some (psName c))
        else
          let logEntry : LogEntry :=
            { id := toString st1.logIdCounter, containerName := psName c,
              oldImage := (parseImageName info.ConfigImage).tag,
              oldImageId := jsSubstring info.Image 7 19,
              newImage := batchNewTag info.ConfigImage, newImageId := "",
              status := "in-progress",
              message := "Updating " ++ psName c ++ " from " ++
                (parseImageName info.ConfigImage).tag ++ " to " ++
                batchNewTag info.ConfigImage ++ "..." }
          let st2 : ServerState :=
            { st1 with logs := logEntry :: st1.logs, logIdCounter := st1.logIdCounter + 1 }
          match env.pull (batchTargetImage info.ConfigImage) with
          | .error msg =>
            ({ containerId := c.Id, containerName := psName c, status := "failed",
               error := msg },
              { st2 with logs := (markFailedByName st2.logs (psName c) ("Failed: " ++ msg)) },
              [.inspect c.Id, .pull (batchTargetImage info.ConfigImage)], none)
          | .ok _ =>
            match recreateSteps env c.Id (psName c) (batchTargetImage info.ConfigImage) with
            | (.error msg, tr) =>
              ({ containerId := c.Id, containerName := psName c, status := "failed",
                 error := msg },
                { st2 with logs := (markFailedByName st2.logs (psName c) ("Failed: " ++ msg)) },
                [.inspect c.Id, .pull (batchTargetImage info.ConfigImage)] ++ tr, none)
            | (.ok newInfo, tr) =>
              ({ containerId := c.Id, containerName := psName c, status := "success",
                 oldTag := (parseImageName info.ConfigImage).tag,
                 newTag := batchNewTag info.ConfigImage },
                { st2 with
                  cache := cacheDelete (cacheDelete st2.cache info.ConfigImage)
                    (batchTargetImage info.ConfigImage),
                  logs := (setLogById st2.logs logEntry.id (fun e =>
                    { e with
                      status := "success", newImage := batchNewTag info.ConfigImage,
                      newImageId := jsSubstring newInfo.Image 7 19,
                      message := "Updated " ++ psName c ++ ": " ++
                        (parseImageName info.ConfigImage).tag ++
                        " → " ++ batchNewTag info.ConfigImage })) },
                [.inspect c.Id, .pull (batchTargetImage info.ConfigImage)] ++ tr, none)

/-- The sequential fold of `processOne` over a container list, accumulating
outcome entries, the action trace, the `selfUpdateSkipped` flag and the
(last) skipped self container's name. -/
def updateAllGo (env : DockerEnv) (now : Nat) :
    List PsContainer → ServerState →
    List BatchItem × ServerState × List DockerAction × Bool × Option String
  | [], st => ([], st, [], false, none)
  | c :: rest, st =>
    let step := processOne env now c st
    let rec_ := updateAllGo env now rest step.2.1
    (step.1 :: rec_.1, rec_.2.1, step.2.2.1 ++ rec_.2.2.1,
      step.2.2.2.isSome || rec_.2.2.2.1,
      match rec_.2.2.2.2 with
      | some nm => some nm
      | none => step.2.2.2)

/-- Embedding of `POST /api/containers/update-all` (index.js lines
909-1074): the sequential loop over running containers and the response
envelope, which always reports overall success. -/
def updateAll (env : DockerEnv) (now : Nat) (st : ServerState) :
    BatchResponse × ServerState × List DockerAction :=
  ({ success := true,
     results := (updateAllGo env now env.listRunning st).1,
     selfUpdateSkipped := (updateAllGo env now env.listRunning st).2.2.2.1,
     selfUpdateContainerName := (updateAllGo env now env.listRunning st).2.2.2.2,
     message :=
       if (updateAllGo env now env.listRunning st).2.2.2.1 = true then
         "Updates applied. DockerMaid (" ++
           ((updateAllGo env now env.listRunning st).2.2.2.2.getD "null") ++
           ") was skipped to prevent crash. Update it manually."
       else "All updates applied successfully." },
    (updateAllGo env now env.listRunning st).2.1,
    (updateAllGo env now env.listRunning st).2.2.1)

/-! ### Journal and cache lemmas -/

theorem markFailedLogs_length (logs : List LogEntry) (t m : String) :
    (markFailedLogs logs t m).length = logs.length := by
  induction logs with
  | nil => rfl
  | cons e rest ih =>
    unfold markFailedLogs
    by_cases h : e.id = t
    · rw [if_pos h]
      simp
    · rw [if_neg h]
      simp [ih]

theorem markFailedLogs_mem_of_ne {logs : List LogEntry} {t m : String} {e : LogEntry}
    (he : e ∈ logs) (hne : e.id ≠ t) : e ∈ markFailedLogs logs t m := by
  induction logs with
  | nil => simp at he
  | cons f rest ih =>
    unfold markFailedLogs
    by_cases h : f.id = t
    · rw [if_pos h]
      rcases List.mem_cons.mp he with rfl | hmem
      · exact absurd h hne
      · exact List.mem_cons_of_mem _ hmem
    · rw [if_neg h]
      rcases List.mem_cons.mp he with rfl | hmem
      · exact List.mem_cons_self _ _
      · exact List.mem_cons_of_mem _ (ih hmem)

theorem markFailedLogs_mem {logs : List LogEntry} {t m : String} {e : LogEntry}
    (he : e ∈ markFailedLogs logs t m) :
    e ∈ logs ∨ (e.id = t ∧ e.status = "failed" ∧ e.message = m) := by
  induction logs with
  | nil => simp [markFailedLogs] at he
  | cons f rest ih =>
    unfold markFailedLogs at he
    by_cases h : f.id = t
    · rw [if_pos h] at he
      rcases List.mem_cons.mp he with rfl | hmem
      · exact Or.inr ⟨h, rfl, rfl⟩
      · exact Or.inl (List.mem_cons_of_mem _ hmem)
    · rw [if_neg h] at he
      rcases List.mem_cons.mp he with rfl | hmem
      · exact Or.inl (List.mem_cons_self _ _)
      · rcases ih hmem with h1 | h2
        · exact Or.inl (List.mem_cons_of_mem _ h1)
        · exact Or.inr h2

theorem setLogById_head (e : LogEntry) (logs : List LogEntry) (i : String)
    (f : LogEntry → LogEntry) (h : e.id = i) :
    setLogById (e :: logs) i f = f e :: logs := by
  unfold setLogById
  rw [if_pos h]

theorem cacheGet_delete_self (c : Cache) (k : String) :
    cacheGet (cacheDelete c k) k = none := by
  unfold cacheGet cacheDelete
  simp only [Option.map_eq_none', List.find?_eq_none, List.mem_filter]
  intro p hp
  simp_all

theorem cacheGet_delete_of_none (c : Cache) (k k' : String)
    (h : cacheGet c k = none) : cacheGet (cacheDelete c k') k = none := by
  unfold cacheGet cacheDelete at *
  simp only [Option.map_eq_none', List.find?_eq_none, List.mem_filter] at *
  intro p hp
  exact h p hp.1

theorem psName_ne_empty (c : PsContainer) : psName c ≠ "" := by
  unfold psName
  rcases c.Names.head? with _ | n
  · decide
  · show (if stripLeadingSlash n = "" then "unknown" else stripLeadingSlash n) ≠ ""
    by_cases h : stripLeadingSlash n = ""
    · rw [if_pos h]
      decide
    · rw [if_neg h]
      exact h

/-- C10: when the initial inspect of the single-container update rejects,
the catch handler runs with `logIdCounter` unchanged, so it targets the id
`String(logIdCounter - 1)`: the request fails, no new journal entry is
created, every entry with a different id is kept untouched, and any entry
that did change carries exactly that id — the most recently created entry
of a previous update — and was set to `failed`. -/
theorem c10_catch_previous_entry :
    ∀ (env : DockerEnv) (cid : String) (tt : Option String) (st : ServerState)
      (msg : String),
      env.inspect cid = .error msg →
      ((updateContainer env cid tt st).1.success = false ∧
        (updateContainer env cid tt st).2.1.logIdCounter = st.logIdCounter ∧
        (updateContainer env cid tt st).2.1.logs.length = st.logs.length ∧
        (∀ e ∈ st.logs, e.id ≠ toString (st.logIdCounter - 1) →
          e ∈ (updateContainer env cid tt st).2.1.logs) ∧
        (∀ e ∈ (updateContainer env cid tt st).2.1.logs,
          e ∈ st.logs ∨ (e.id = toString (st.logIdCounter - 1) ∧ e.status = "failed"))) := by
  intro env cid tt st msg hins
  have h : updateContainer env cid tt st =
      (failResp msg,
        { st with logs := (markFailedLogs st.logs (toString (st.logIdCounter - 1))
            ("Failed to update: " ++ msg)) },
        [.inspect cid]) := by
    unfold updateContainer
    rw [hins]
  rw [h]
  refine ⟨rfl, rfl, markFailedLogs_length _ _ _, ?_, ?_⟩
  · intro e he hne
    exact markFailedLogs_mem_of_ne he hne
  · intro e he
    rcases markFailedLogs_mem he with h1 | h2
    · exact Or.inl h1
    · exact Or.inr ⟨h2.1, h2.2.1⟩

/-- An environment whose container inspect always rejects. -/
def envInsErr : DockerEnv :=
  { registry := regEnvBoom, inspect := fun _ => .error "inspect failed",
    pull := fun _ => .ok (), remove := fun _ => .ok (),
    create := fun _ _ => .ok (), start := fun _ => .ok (),
    inspectNew := fun _ => .error "gone", ownId := none, listRunning := [] }

/-- A server state holding one finished journal entry with id `"1"` and
`logIdCounter = 2`. -/
def stPrev : ServerState :=
  { cache := [],
    logs := [{ id := "1", containerName := "other", oldImage := "1.0",
               oldImageId := "aaaa", newImage := "1.0", newImageId := "bbbb",
               status := "success", message := "done" }],
    logIdCounter := 2 }

/-- C10, witness: the theorem applied to a failing inspect over a journal
holding one entry of a previous, unrelated update. -/
theorem c10_witness :
    ((updateContainer envInsErr "cid" none stPrev).1.success = false ∧
      (updateContainer envInsErr "cid" none stPrev).2.1.logIdCounter = stPrev.logIdCounter ∧
      (updateContainer envInsErr "cid" none stPrev).2.1.logs.length = stPrev.logs.length ∧
      (∀ e ∈ stPrev.logs, e.id ≠ toString (stPrev.logIdCounter - 1) →
        e ∈ (updateContainer envInsErr "cid" none stPrev).2.1.logs) ∧
      (∀ e ∈ (updateContainer envInsErr "cid" none stPrev).2.1.logs,
        e ∈ stPrev.logs ∨ (e.id = toString (stPrev.logIdCounter - 1) ∧
          e.status = "failed"))) :=
  c10_catch_previous_entry envInsErr "cid" none stPrev "inspect failed" rfl

/-- An environment whose create step rejects after stop and remove
succeeded, leaving the container destroyed and the operation failed. -/
def envCreateFail : DockerEnv :=
  { registry := regEnvBoom,
    inspect := fun _ => .ok ⟨"/web", "nginx:1", "sha256:old"⟩,
    pull := fun _ => .ok (),
    remove := fun _ => .ok (),
    create := fun _ _ => .error "create failed",
    start := fun _ => .ok (),
    inspectNew := fun _ => .error "gone",
    ownId := none, listRunning := [] }

/-- A server state whose cache holds an entry for `"nginx:1"`. -/
def stWithEntry : ServerState :=
  { cache := [("nginx:1", staleEntry)], logs := [], logIdCounter := 1 }

/-- C5, counterexample: a recreation of a `nginx:1` container that fails at
the create step returns failure yet leaves the update-cache entry for the
old (= target) image name in place — the catch handler performs no cache
invalidation, refuting "removed regardless of outcome". -/
theorem c5_counterexample :
    (updateContainer envCreateFail "cid" none stWithEntry).1.success = false ∧
    cacheGet (updateContainer envCreateFail "cid" none stWithEntry).2.1.cache "nginx:1" =
      some staleEntry := by
  constructor
  · decide
  · decide

/-- C5 (amended): the update-cache entries for the old and the target image
names are removed on the normal success path and on the self-update path;
when the operation fails — on any error path — the cache is left completely
unchanged. -/
theorem c5_cache_invalidation_spec :
    (∀ (env : DockerEnv) (cid : String) (tt : Option String) (st : ServerState)
        (info newInfo : ContainerInfo),
      env.inspect cid = .ok info →
      isSelfFor env cid = false →
      env.pull (computeTarget info.ConfigImage tt).2.2 = .ok () →
      env.remove cid = .ok () →
      env.create (stripLeadingSlash info.Name) (computeTarget info.ConfigImage tt).2.2 =
        .ok () →
      env.start (stripLeadingSlash info.Name) = .ok () →
      env.inspectNew (stripLeadingSlash info.Name) = .ok newInfo →
      (cacheGet (updateContainer env cid tt st).2.1.cache info.ConfigImage = none ∧
        cacheGet (updateContainer env cid tt st).2.1.cache
          (computeTarget info.ConfigImage tt).2.2 = none)) ∧
    (∀ (env : DockerEnv) (cid : String) (tt : Option String) (st : ServerState)
        (info : ContainerInfo),
      env.inspect cid = .ok info →
      isSelfFor env cid = true →
      env.pull (computeTarget info.ConfigImage tt).2.2 = .ok () →
      (cacheGet (updateContainer env cid tt st).2.1.cache info.ConfigImage = none ∧
        cacheGet (updateContainer env cid tt st).2.1.cache
          (computeTarget info.ConfigImage tt).2.2 = none)) ∧
    (∀ (env : DockerEnv) (cid : String) (tt : Option String) (st : ServerState),
      (updateContainer env cid tt st).1.success = false →
      (updateContainer env cid tt st).2.1.cache = st.cache) := by
  refine ⟨?_, ?_, ?_⟩
  · intro env cid tt st info newInfo hins hself hpull hrm hcr hstart hin2
    have hrec : recreateSteps env cid (stripLeadingSlash info.Name)
        (computeTarget info.ConfigImage tt).2.2 =
        (.ok newInfo,
          [.stop cid, .remove cid,
            .create (stripLeadingSlash info.Name) (computeTarget info.ConfigImage tt).2.2,
            .start (stripLeadingSlash info.Name),
            .inspectNew (stripLeadingSlash info.Name)]) := by
      unfold recreateSteps
      rw [hrm, hcr, hstart, hin2]
    have hcache : (updateContainer env cid tt st).2.1.cache =
        cacheDelete (cacheDelete st.cache (computeTarget info.ConfigImage tt).2.2)
          info.ConfigImage := by
      simp [updateContainer, hins, hself, hpull, hrec]
    rw [hcache]
    exact ⟨cacheGet_delete_self _ _,
      cacheGet_delete_of_none _ _ _ (cacheGet_delete_self _ _)⟩
  · intro env cid tt st info hins hself hpull
    have hcache : (updateContainer env cid tt st).2.1.cache =
        cacheDelete (cacheDelete st.cache (computeTarget info.ConfigImage tt).2.2)
          info.ConfigImage := by
      simp [updateContainer, hins, hself, hpull]
    rw [hcache]
    exact ⟨cacheGet_delete_self _ _,
      cacheGet_delete_of_none _ _ _ (cacheGet_delete_self _ _)⟩
  · intro env cid tt st hfail
    rcases hins : env.inspect cid with msg | info
    · simp [updateContainer, hins]
    · rcases hpull : env.pull (computeTarget info.ConfigImage tt).2.2 with msg | u
      · simp [updateContainer, hins, hpull]
      · by_cases hself : isSelfFor env cid = true
        · simp [updateContainer, hins, hpull, hself] at hfail
        · rcases hrec : recreateSteps env cid (stripLeadingSlash info.Name)
              (computeTarget info.ConfigImage tt).2.2 with ⟨res, tr⟩
          rcases res with msg | newInfo
          · simp [updateContainer, hins, hpull, hself, hrec]
          · simp [updateContainer, hins, hpull, hself, hrec] at hfail

/-- An environment where the whole recreation sequence succeeds. -/
def envAllOk : DockerEnv :=
  { registry := regEnvBoom,
    inspect := fun _ => .ok ⟨"/web", "nginx:1", "sha256:old"⟩,
    pull := fun _ => .ok (),
    remove := fun _ => .ok (),
    create := fun _ _ => .ok (),
    start := fun _ => .ok (),
    inspectNew := fun _ => .ok ⟨"/web", "nginx:1", "sha256:new"⟩,
    ownId := none, listRunning := [] }

/-- C5, witness: a successful recreation of the `nginx:1` container removes
the cache entry recorded under that (old and target) image name. -/
theorem c5_witness :
    cacheGet (updateContainer envAllOk "cid" none stWithEntry).2.1.cache "nginx:1" = none ∧
    cacheGet (updateContainer envAllOk "cid" none stWithEntry).2.1.cache
      (computeTarget "nginx:1" none).2.2 = none :=
  c5_cache_invalidation_spec.1 envAllOk "cid" none stWithEntry
    ⟨"/web", "nginx:1", "sha256:old"⟩ ⟨"/web", "nginx:1", "sha256:new"⟩
    rfl rfl rfl rfl rfl rfl rfl

/-! ### Trace lemmas for the Self-Update Guard claim -/

theorem recreateSteps_actions (env : DockerEnv) (cid nm img : String) :
    ∀ a ∈ (recreateSteps env cid nm img).2,
      a = DockerAction.stop cid ∨ a = DockerAction.remove cid ∨
        a = DockerAction.create nm img ∨ a = DockerAction.start nm ∨
        a = DockerAction.inspectNew nm := by
  intro a ha
  unfold recreateSteps at ha
  rcases h1 : env.remove cid with m | u <;> rw [h1] at ha
  · simp at ha
    rcases ha with h | h <;> simp [h]
  · rcases h2 : env.create nm img with m | u2 <;> rw [h2] at ha
    · simp at ha
      rcases ha with h | h | h <;> simp [h]
    · rcases h3 : env.start nm with m | u3 <;> rw [h3] at ha
      · simp at ha
        rcases ha with h | h | h | h <;> simp [h]
      · rcases h4 : env.inspectNew nm with m | ni <;> rw [h4] at ha
        · simp at ha
          rcases ha with h | h | h | h | h <;> simp [h]
        · simp at ha
          rcases ha with h | h | h | h | h <;> simp [h]

theorem processOne_destructive (env : DockerEnv) (now : Nat) (c : PsContainer)
    (st : ServerState) (x : String)
    (ha : DockerAction.stop x ∈ (processOne env now c st).2.2.1 ∨
      DockerAction.remove x ∈ (processOne env now c st).2.2.1) :
    x = c.Id ∧ isSelfFor env c.Id = false := by
  rcases hins : env.inspect c.Id with msg | info
  · simp [processOne, hins] at ha
  · by_cases hsha : jsStartsWith info.ConfigImage.data ("sha256:".data) = true
    · simp [processOne, hins, hsha] at ha
    · rw [Bool.not_eq_true] at hsha
      by_cases hupd : (checkImageUpdate env.registry now info.ConfigImage info.Image
          st.cache).1.hasUpdate = false
      · simp [processOne, hins, hsha, hupd] at ha
      · rw [Bool.not_eq_false] at hupd
        by_cases hself : isSelfFor env c.Id = true
        · simp [processOne, hins, hsha, hupd, hself] at ha
        · rw [Bool.not_eq_true] at hself
          refine And.intro ?_ hself
          rcases hpull : env.pull (batchTargetImage info.ConfigImage) with m | u
          · simp [processOne, hins, hsha, hupd, hself, hpull] at ha
          · rcases hrec : recreateSteps env c.Id (psName c)
                (batchTargetImage info.ConfigImage) with ⟨res, tr⟩
            have htr : ∀ a ∈ tr,
                a = DockerAction.stop c.Id ∨ a = DockerAction.remove c.Id ∨
                  (∃ n i, a = DockerAction.create n i) ∨ (∃ n, a = DockerAction.start n) ∨
                  (∃ n, a = DockerAction.inspectNew n) := by
              intro a hat
              have := recreateSteps_actions env c.Id (psName c) _ a (by rw [hrec]; exact hat)
              rcases this with h | h | h | h | h
              · exact Or.inl h
              · exact Or.inr (Or.inl h)
              · exact Or.inr (Or.inr (Or.inl ⟨_, _, h⟩))
              · exact Or.inr (Or.inr (Or.inr (Or.inl ⟨_, h⟩)))
              · exact Or.inr (Or.inr (Or.inr (Or.inr ⟨_, h⟩)))
            rcases res with m | ni
            · simp [processOne, hins, hsha, hupd, hself, hpull, hrec] at ha
              rcases ha with ha | ha
              · rcases htr _ ha with h | h | ⟨n, i, h⟩ | ⟨n, h⟩ | ⟨n, h⟩ <;>
                  simp_all
              · rcases htr _ ha with h | h | ⟨n, i, h⟩ | ⟨n, h⟩ | ⟨n, h⟩ <;>
                  simp_all
            · simp [processOne, hins, hsha, hupd, hself, hpull, hrec] at ha
              rcases ha with ha | ha
              · rcases htr _ ha with h | h | ⟨n, i, h⟩ | ⟨n, h⟩ | ⟨n, h⟩ <;>
                  simp_all
              · rcases htr _ ha with h | h | ⟨n, i, h⟩ | ⟨n, h⟩ | ⟨n, h⟩ <;>
                  simp_all

theorem updateAllGo_destructive (env : DockerEnv) (now : Nat) :
    ∀ (l : List PsContainer) (st : ServerState) (x : String),
      (DockerAction.stop x ∈ (updateAllGo env now l st).2.2.1 ∨
        DockerAction.remove x ∈ (updateAllGo env now l st).2.2.1) →
      ∃ c ∈ l, x = c.Id ∧ isSelfFor env c.Id = false := by
  intro l
  induction l with
  | nil => intro st x hx; simp [updateAllGo] at hx
  | cons c rest ih =>
    intro st x hx
    simp only [updateAllGo, List.mem_append] at hx
    rcases hx with (h | h) | (h | h)
    · obtain ⟨h1, h2⟩ := processOne_destructive env now c st x (Or.inl h)
      exact ⟨c, List.mem_cons_self _ _, h1, h2⟩
    · obtain ⟨c', hc', h1, h2⟩ := ih _ x (Or.inl h)
      exact ⟨c', List.mem_cons_of_mem _ hc', h1, h2⟩
    · obtain ⟨h1, h2⟩ := processOne_destructive env now c st x (Or.inr h)
      exact ⟨c, List.mem_cons_self _ _, h1, h2⟩
    · obtain ⟨c', hc', h1, h2⟩ := ih _ x (Or.inr h)
      exact ⟨c', List.mem_cons_of_mem _ hc', h1, h2⟩

theorem processOne_name (env : DockerEnv) (now : Nat) (c : PsContainer) (st : ServerState) :
    (processOne env now c st).2.2.2 = none ∨
      (processOne env now c st).2.2.2 = some (psName c) := by
  rcases hins : env.inspect c.Id with msg | info
  · simp [processOne, hins]
  · by_cases hsha : jsStartsWith info.ConfigImage.data ("sha256:".data) = true
    · simp [processOne, hins, hsha]
    · rw [Bool.not_eq_true] at hsha
      by_cases hupd : (checkImageUpdate env.registry now info.ConfigImage info.Image
          st.cache).1.hasUpdate = false
      · simp [processOne, hins, hsha, hupd]
      · rw [Bool.not_eq_false] at hupd
        by_cases hself : isSelfFor env c.Id = true
        · simp [processOne, hins, hsha, hupd, hself]
        · rw [Bool.not_eq_true] at hself
          rcases hpull : env.pull (batchTargetImage info.ConfigImage) with m | u
          · simp [processOne, hins, hsha, hupd, hself, hpull]
          · rcases hrec : recreateSteps env c.Id (psName c)
                (batchTargetImage info.ConfigImage) with ⟨res, tr⟩
            rcases res with m | ni
            · simp [processOne, hins, hsha, hupd, hself, hpull, hrec]
            · simp [processOne, hins, hsha, hupd, hself, hpull, hrec]

theorem updateAllGo_name_ne_empty (env : DockerEnv) (now : Nat) :
    ∀ (l : List PsContainer) (st : ServerState) (nm : String),
      (updateAllGo env now l st).2.2.2.2 = some nm → nm ≠ "" := by
  intro l
  induction l with
  | nil => intro st nm h; simp [updateAllGo] at h
  | cons c rest ih =>
    intro st nm h
    simp only [updateAllGo] at h
    rcases hr : (updateAllGo env now rest (processOne env now c st).2.1).2.2.2.2 with _ | nm'
    · rw [hr] at h
      rcases processOne_name env now c st with hn | hn
      · rw [hn] at h
        simp at h
      · rw [hn] at h
        simp only [Option.some.injEq] at h
        rw [← h]
        exact psName_ne_empty c
    · rw [hr] at h
      simp only [Option.some.injEq] at h
      rw [← h]
      exact ih _ nm' hr

theorem processOne_self_skip (env : DockerEnv) (now : Nat) (c : PsContainer)
    (st : ServerState) (info : ContainerInfo)
    (hins : env.inspect c.Id = .ok info)
    (hsha : jsStartsWith info.ConfigImage.data ("sha256:".data) = false)
    (hupd : (checkImageUpdate env.registry now info.ConfigImage info.Image
      st.cache).1.hasUpdate = true)
    (hself : isSelfFor env c.Id = true) :
    processOne env now c st =
      ({ containerId := c.Id, containerName := psName c, status := "skipped",
         message := "Self-update skipped. Please update DockerMaid manually using: docker compose up -d --force-recreate",
         selfUpdate := true },
        { st with cache := (checkImageUpdate env.registry now info.ConfigImage
            info.Image st.cache).2.1 },
        [.inspect c.Id], some (psName c)) := by
  simp [processOne, hins, hsha, hupd, hself]

theorem updateAllGo_self_skip (env : DockerEnv) (now : Nat) :
    ∀ (pre : List PsContainer) (c : PsContainer) (post : List PsContainer)
      (st : ServerState) (info : ContainerInfo),
      isSelfFor env c.Id = true →
      env.inspect c.Id = .ok info →
      jsStartsWith info.ConfigImage.data ("sha256:".data) = false →
      (checkImageUpdate env.registry now info.ConfigImage info.Image
        (updateAllGo env now pre st).2.1.cache).1.hasUpdate = true →
      ((updateAllGo env now (pre ++ c :: post) st).2.2.2.1 = true ∧
        (∃ nm, (updateAllGo env now (pre ++ c :: post) st).2.2.2.2 = some nm ∧ nm ≠ "") ∧
        (∃ item ∈ (updateAllGo env now (pre ++ c :: post) st).1,
          item.containerId = c.Id ∧ item.status = "skipped" ∧ item.selfUpdate = true)) := by
  intro pre
  induction pre with
  | nil =>
    intro c post st info hself hins hsha hupd
    have hst : (updateAllGo env now ([] : List PsContainer) st).2.1 = st := rfl
    rw [hst] at hupd
    have hp := processOne_self_skip env now c st info hins hsha hupd hself
    simp only [List.nil_append, updateAllGo, hp]
    refine ⟨?_, ?_, ?_⟩
    · simp
    · rcases hr : (updateAllGo env now post
          { st with cache := (checkImageUpdate env.registry now info.ConfigImage
            info.Image st.cache).2.1 }).2.2.2.2 with _ | nm'
      · exact ⟨psName c, by simp [hr], psName_ne_empty c⟩
      · exact ⟨nm', by simp [hr], updateAllGo_name_ne_empty env now post _ nm' hr⟩
    · refine ⟨_, List.mem_cons_self _ _, rfl, rfl, rfl⟩
  | cons p pre' ih =>
    intro c post st info hself hins hsha hupd
    have hupd' : (checkImageUpdate env.registry now info.ConfigImage info.Image
        (updateAllGo env now pre' (processOne env now p st).2.1).2.1.cache).1.hasUpdate =
        true := hupd
    obtain ⟨h1, ⟨nm, hnm, hne⟩, ⟨item, hitem, hprops⟩⟩ :=
      ih c post (processOne env now p st).2.1 info hself hins hsha hupd'
    simp only [List.cons_append, updateAllGo, List.append_eq]
    refine ⟨?_, ?_, ?_⟩
    · rw [h1]
      simp
    · exact ⟨nm, by rw [hnm], hne⟩
    · exact ⟨item, List.mem_cons_of_mem _ hitem, hprops⟩

/-- C1: when the Self-Update Guard matches the target container, the
single-container update issues exactly the inspect and the pull of the
target image — never stop, remove, create or start — succeeds with the
distinguishing `selfUpdate` (and `manualRestartRequired`) flags, and
records a `success` journal entry instructing a manual restart; and in
"update all" no stop or remove is ever issued against a guard-matched
container id, while a guard-matched running container whose image has a
detected update is reported as skipped (`selfUpdate` item flag,
`selfUpdateSkipped` true) with a non-empty `selfUpdateContainerName`. -/
theorem c1_self_update_guard :
    (∀ (env : DockerEnv) (cid : String) (tt : Option String) (st : ServerState)
        (info : ContainerInfo),
      env.inspect cid = .ok info →
      isSelfFor env cid = true →
      env.pull (computeTarget info.ConfigImage tt).2.2 = .ok () →
      ((updateContainer env cid tt st).1.selfUpdate = true ∧
        (updateContainer env cid tt st).1.success = true ∧
        (updateContainer env cid tt st).1.manualRestartRequired = true ∧
        (updateContainer env cid tt st).2.2 =
          [DockerAction.inspect cid,
            DockerAction.pull (computeTarget info.ConfigImage tt).2.2] ∧
        (∃ e ∈ (updateContainer env cid tt st).2.1.logs,
          e.id = toString st.logIdCounter ∧ e.status = "success" ∧
          e.message = "Image pulled for " ++ stripLeadingSlash info.Name ++
            ". Please restart the container manually using: docker compose up -d --force-recreate dockermaid"))) ∧
    (∀ (env : DockerEnv) (now : Nat) (st : ServerState) (cid : String),
      isSelfFor env cid = true →
      DockerAction.stop cid ∉ (updateAll env now st).2.2 ∧
      DockerAction.remove cid ∉ (updateAll env now st).2.2) ∧
    (∀ (env : DockerEnv) (now : Nat) (st : ServerState) (pre post : List PsContainer)
        (c : PsContainer) (info : ContainerInfo),
      env.listRunning = pre ++ c :: post →
      isSelfFor env c.Id = true →
      env.inspect c.Id = .ok info →
      jsStartsWith info.ConfigImage.data ("sha256:".data) = false →
      (checkImageUpdate env.registry now info.ConfigImage info.Image
        (updateAllGo env now pre st).2.1.cache).1.hasUpdate = true →
      ((updateAll env now st).1.selfUpdateSkipped = true ∧
        (∃ nm, (updateAll env now st).1.selfUpdateContainerName = some nm ∧ nm ≠ "") ∧
        (∃ item ∈ (updateAll env now st).1.results,
          item.containerId = c.Id ∧ item.status = "skipped" ∧
          item.selfUpdate = true))) := by
  refine ⟨?_, ?_, ?_⟩
  · intro env cid tt st info hins hself hpull
    refine ⟨?_, ?_, ?_, ?_, ?_⟩
    · simp [updateContainer, hins, hpull, hself]
    · simp [updateContainer, hins, hpull, hself]
    · simp [updateContainer, hins, hpull, hself]
    · simp [updateContainer, hins, hpull, hself]
    · have hlogs : (updateContainer env cid tt st).2.1.logs =
          ({ id := toString st.logIdCounter,
             containerName := stripLeadingSlash info.Name,
             oldImage := (computeTarget info.ConfigImage tt).1,
             oldImageId := jsSubstring info.Image 0 12,
             newImage := (computeTarget info.ConfigImage tt).2.1, newImageId := "",
             status := "success",
             message := "Image pulled for " ++ stripLeadingSlash info.Name ++
               ". Please restart the container manually using: docker compose up -d --force-recreate dockermaid" } :
            LogEntry) :: st.logs := by
        simp [updateContainer, hins, hpull, hself, setLogById_head]
      rw [hlogs]
      exact ⟨_, List.mem_cons_self _ _, rfl, rfl, rfl⟩
  · intro env now st cid hself
    constructor <;> intro hmem
    · obtain ⟨c, -, hxc, hsf⟩ :=
        updateAllGo_destructive env now env.listRunning st cid (Or.inl hmem)
      rw [hxc] at hself
      rw [hself] at hsf
      exact absurd hsf (by simp)
    · obtain ⟨c, -, hxc, hsf⟩ :=
        updateAllGo_destructive env now env.listRunning st cid (Or.inr hmem)
      rw [hxc] at hself
      rw [hself] at hsf
      exact absurd hsf (by simp)
  · intro env now st pre post c info hlist hself hins hsha hupd
    obtain ⟨h1, ⟨nm, hnm, hne⟩, ⟨item, hit, hp⟩⟩ :=
      updateAllGo_self_skip env now pre c post st info hself hins hsha hupd
    refine ⟨?_, ⟨nm, ?_, hne⟩, ⟨item, ?_, hp⟩⟩
    · show (updateAllGo env now env.listRunning st).2.2.2.1 = true
      rw [hlist]
      exact h1
    · show (updateAllGo env now env.listRunning st).2.2.2.2 = some nm
      rw [hlist]
      exact hnm
    · show item ∈ (updateAllGo env now env.listRunning st).1
      rw [hlist]
      exact hit

/-- A fleet of one ordinary container and the management process's own
container (own id `aaaaaaaaaaaa`), with updates available for both. -/
def envW1 : DockerEnv :=
  { registry :=
      { remoteDigest := fun _ => .ok "sha256:new",
        localImages := [⟨"sha256:w", ["web:2.0"], ["web@sha256:oldw"]⟩,
          ⟨"sha256:m", ["maid:2.0"], ["maid@sha256:oldm"]⟩] },
    inspect := fun id =>
      if id = "aaaaaaaaaaaa00" then .ok ⟨"/dockermaid", "maid:2.0", "sha256:m"⟩
      else .ok ⟨"/web", "web:2.0", "sha256:w"⟩,
    pull := fun _ => .ok (), remove := fun _ => .ok (),
    create := fun _ _ => .ok (), start := fun _ => .ok (),
    inspectNew := fun _ => .ok ⟨"/web", "web:2.0", "sha256:w2"⟩,
    ownId := some "aaaaaaaaaaaa",
    listRunning := [⟨"bb01", ["/web"]⟩, ⟨"aaaaaaaaaaaa00", ["/dockermaid"]⟩] }

/-- An empty initial server state. -/
def stW0 : ServerState := { cache := [], logs := [], logIdCounter := 1 }

/-- C1, witness: on the concrete fleet `envW1`, the single self-update
issues only inspect and pull with the `selfUpdate` flag and manual-restart
journal entry, and "update all" reports the self container as skipped with
a non-empty name. -/
theorem c1_witness :
    ((updateContainer envW1 "aaaaaaaaaaaa00" none stW0).1.selfUpdate = true ∧
      (updateContainer envW1 "aaaaaaaaaaaa00" none stW0).1.success = true ∧
      (updateContainer envW1 "aaaaaaaaaaaa00" none stW0).1.manualRestartRequired = true ∧
      (updateContainer envW1 "aaaaaaaaaaaa00" none stW0).2.2 =
        [DockerAction.inspect "aaaaaaaaaaaa00",
          DockerAction.pull (computeTarget "maid:2.0" none).2.2] ∧
      (∃ e ∈ (updateContainer envW1 "aaaaaaaaaaaa00" none stW0).2.1.logs,
        e.id = toString stW0.logIdCounter ∧ e.status = "success" ∧
        e.message = "Image pulled for " ++ stripLeadingSlash "/dockermaid" ++
          ". Please restart the container manually using: docker compose up -d --force-recreate dockermaid")) ∧
    ((updateAll envW1 0 stW0).1.selfUpdateSkipped = true ∧
      (∃ nm, (updateAll envW1 0 stW0).1.selfUpdateContainerName = some nm ∧ nm ≠ "") ∧
      (∃ item ∈ (updateAll envW1 0 stW0).1.results,
        item.containerId = "aaaaaaaaaaaa00" ∧ item.status = "skipped" ∧
        item.selfUpdate = true)) :=
  ⟨c1_self_update_guard.1 envW1 "aaaaaaaaaaaa00" none stW0
      ⟨"/dockermaid", "maid:2.0", "sha256:m"⟩ rfl (by decide) rfl,
    c1_self_update_guard.2.2 envW1 0 stW0 [⟨"bb01", ["/web"]⟩] []
      ⟨"aaaaaaaaaaaa00", ["/dockermaid"]⟩ ⟨"/dockermaid", "maid:2.0", "sha256:m"⟩
      rfl (by decide) rfl (by decide) (by decide)⟩

end DockerMaid
